import Mathlib

/-!
Verification development for the EggPricePro repository.

The definitions below are a shallow embedding of the TypeScript source:

* `shared/schema.ts` (validation schemas and record types),
* `server/storage.ts` (`MemStorage`, the in-memory repository),
* `server/utils/geocoding.ts` (coordinate resolver and haversine distance),
* `server/cron.ts` (the scheduled price updater),
* `server/routes.ts` (the `GET /api/prices` search handler).

Modelling conventions:

* JavaScript numbers that can be `NaN` (results of `parseInt` on garbage and
  arithmetic built from them) are represented as `Option` values (`none` = NaN);
  arithmetic on them propagates `none`, and every ordering comparison with
  `none` is `false`, exactly as in JavaScript.
* Non-NaN numeric values are represented as `ℚ` where the code only does
  decimal arithmetic, and as `ℝ` inside the trigonometric distance computation.
* `Date` values are an abstract clock passed explicitly (`now : ℤ`, epoch
  milliseconds); `Math.random()` is an explicit oracle argument `rand`.
* JS `Map` objects are association lists `List (ℕ × α)`; `Map.set` replaces an
  existing key in place and otherwise appends, and `Map.values()` iterates in
  insertion order, which the list order models.
* `String(x)` / `Number(s)` round-trips on stored latitude/longitude/price
  values are the identity on the represented number and are modelled as such.
-/

/-! ## JavaScript primitives -/

/-- A JavaScript number that may be `NaN` (`none`). -/
abbrev JSNum := Option ℚ

/-- JS addition: `NaN` propagates. -/
def jadd : JSNum → JSNum → JSNum
  | some a, some b => some (a + b)
  | _, _ => none

/-- JS subtraction: `NaN` propagates. -/
def jsub : JSNum → JSNum → JSNum
  | some a, some b => some (a - b)
  | _, _ => none

/-- JS multiplication: `NaN` propagates. -/
def jmul : JSNum → JSNum → JSNum
  | some a, some b => some (a * b)
  | _, _ => none

/-- The numeric value of a maximal leading run of decimal digits; `none` when
there is no digit (`parseInt` yields `NaN`). -/
def digitsVal (cs : List Char) : Option ℕ :=
  let ds := cs.takeWhile (·.isDigit)
  if ds = [] then none
  else some (ds.foldl (fun n c => 10 * n + (c.toNat - 48)) 0)

/-- JS `parseInt(s, 10)`: skip leading whitespace, an optional sign, then read
the longest prefix of decimal digits; `NaN` (here `none`) when there is none. -/
def js_parseInt (s : String) : Option ℤ :=
  match s.toList.dropWhile (·.isWhitespace) with
  | [] => none
  | c :: rest =>
    if c = '-' then (digitsVal rest).map (fun n => -(n : ℤ))
    else if c = '+' then (digitsVal rest).map (fun n => (n : ℤ))
    else (digitsVal (c :: rest)).map (fun n => (n : ℤ))

/-- JS `%` on integers (remainder truncated toward zero, sign of the dividend). -/
def jsRem (a n : ℤ) : ℤ := Int.tmod a n

/-- JS `Math.round`: round half toward positive infinity. -/
def jsRound (x : ℚ) : ℤ := ⌊x + 1/2⌋

/-- JS `s.charAt(i)`: the one-character string at index `i`, or `""`. -/
def jsCharAt (s : String) (i : ℕ) : String :=
  match (s.toList.drop i).head? with
  | some c => String.mk [c]
  | none => ""

/-- JS `s.substring(a, b)` for `a ≤ b`. -/
def jsSubstring (s : String) (a b : ℕ) : String :=
  String.mk ((s.toList.take b).drop a)

/-- JS `s.startsWith(p)`. -/
def jsStartsWith (s p : String) : Bool := p.toList.isPrefixOf s.toList

/-- JS `s.toLowerCase()` (ASCII, which covers every string the code builds). -/
def jsToLower (s : String) : String := String.mk (s.toList.map Char.toLower)

/-- JS `x || d` for a possibly-absent string: `undefined` and `""` are falsy. -/
def jsOr (o : Option String) (d : String) : String :=
  match o with
  | none => d
  | some "" => d
  | some s => s

/-- JS `Math.min(...l)` over a spread list, guarded nonempty in the source. -/
def foldMin : List ℚ → Option ℚ
  | [] => none
  | p :: rest => some (rest.foldl min p)

/-- JS `Math.max(...l)` over a spread list, guarded nonempty in the source. -/
def foldMax : List ℚ → Option ℚ
  | [] => none
  | p :: rest => some (rest.foldl max p)

/-! ## Association-list model of JS `Map` -/

/-- `Map.set`: replace the value at an existing key in place, else append. -/
def mapSet {α : Type} : List (ℕ × α) → ℕ → α → List (ℕ × α)
  | [], k, v => [(k, v)]
  | (k₀, v₀) :: rest, k, v =>
    if k₀ = k then (k, v) :: rest else (k₀, v₀) :: mapSet rest k v

/-- `Map.get`: the value at a key, if present. -/
def mapGet {α : Type} : List (ℕ × α) → ℕ → Option α
  | [], _ => none
  | (k₀, v₀) :: rest, k => if k₀ = k then some v₀ else mapGet rest k

/-- `Array.from(m.values())`: the values in insertion order. -/
def mapValues {α : Type} (m : List (ℕ × α)) : List α := m.map (·.2)

/-- The keys of the map. -/
def mapKeys {α : Type} (m : List (ℕ × α)) : List ℕ := m.map (·.1)

theorem mapSet_fresh {α : Type} (m : List (ℕ × α)) (k : ℕ) (v : α)
    (h : k ∉ mapKeys m) : mapSet m k v = m ++ [(k, v)] := by
  induction m with
  | nil => rfl
  | cons kv rest ih =>
    obtain ⟨k₀, v₀⟩ := kv
    simp only [mapKeys, List.map_cons, List.mem_cons] at h
    push_neg at h
    simp only [mapSet, if_neg (fun e : k₀ = k => h.1 e.symm),
      List.cons_append, ih h.2]

theorem mapKeys_append {α : Type} (m₁ m₂ : List (ℕ × α)) :
    mapKeys (m₁ ++ m₂) = mapKeys m₁ ++ mapKeys m₂ := by
  simp [mapKeys]

theorem mapValues_append {α : Type} (m₁ m₂ : List (ℕ × α)) :
    mapValues (m₁ ++ m₂) = mapValues m₁ ++ mapValues m₂ := by
  simp [mapValues]

theorem mapGet_append_fresh {α : Type} (m : List (ℕ × α)) (k : ℕ) (v : α)
    (h : k ∉ mapKeys m) : mapGet (m ++ [(k, v)]) k = some v := by
  induction m with
  | nil => simp [mapGet]
  | cons kv rest ih =>
    obtain ⟨k₀, v₀⟩ := kv
    simp only [mapKeys, List.map_cons, List.mem_cons] at h
    push_neg at h
    simpa only [List.cons_append, mapGet,
      if_neg (fun e : k₀ = k => h.1 e.symm)] using ih h.2

theorem mapGet_append_of_ne {α : Type} (m : List (ℕ × α)) (k j : ℕ) (v : α)
    (h : j ≠ k) : mapGet (m ++ [(k, v)]) j = mapGet m j := by
  induction m with
  | nil => simp [mapGet, if_neg (fun e : k = j => h e.symm)]
  | cons kv rest ih =>
    obtain ⟨k₀, v₀⟩ := kv
    simp only [List.cons_append, mapGet]
    split <;> simp [ih]

/-! ## Data model (`shared/schema.ts`) -/

/-- A row of the `users` table. -/
structure User where
  id : ℕ
  username : String
  password : String
deriving Repr, DecidableEq

/-- A row of the `stores` table.  `latitude`/`longitude` are `numeric` columns
carried as decimal strings in TS; we carry the represented number, `none` for
the string `"NaN"`. -/
structure Store where
  id : ℕ
  name : String
  address : String
  city : String
  state : String
  zipCode : String
  latitude : JSNum
  longitude : JSNum
  phone : Option String
  website : Option String
  hours : Option String
deriving Repr, DecidableEq

/-- A row of the `prices` table; `price` is a `numeric` column carried as a
decimal string in TS, modelled by the represented rational. `recordedAt` is a
timestamp (epoch milliseconds). -/
structure Price where
  id : ℕ
  storeId : ℕ
  eggType : String
  price : ℚ
  recordedAt : ℤ
deriving Repr, DecidableEq

/-- `insertUserSchema`: a user with no `id` (the repository assigns it). -/
structure InsertUser where
  username : String
  password : String
deriving Repr, DecidableEq

/-- `insertStoreSchema`: a store with no `id` (the repository assigns it). -/
structure InsertStore where
  name : String
  address : String
  city : String
  state : String
  zipCode : String
  latitude : JSNum
  longitude : JSNum
  phone : Option String
  website : Option String
  hours : Option String
deriving Repr, DecidableEq

/-- `insertPriceSchema` omits `id` and `recordedAt`; callers in `routes.ts`
still pass a `recordedAt` property, which `createPrice` overrides, so the
field is kept here as optional caller-supplied data. -/
structure InsertPrice where
  storeId : ℕ
  eggType : String
  price : ℚ
  recordedAt : Option ℤ
deriving Repr, DecidableEq

/-- `zipCodeSchema`: `^\d{5}$`. -/
def isZip5 (s : String) : Bool :=
  s.toList.length == 5 && s.toList.all (·.isDigit)

/-- `zipCodeSchema.safeParse` on a possibly-absent query value: `undefined`
is not a string and fails. -/
def zipValid (o : Option String) : Bool :=
  match o with
  | none => false
  | some s => isZip5 s

/-! ## The repository (`server/storage.ts`, class `MemStorage`) -/

/-- The mutable state of `MemStorage`: three maps plus identity counters. -/
structure MemStorage where
  usersData : List (ℕ × User)
  storesData : List (ℕ × Store)
  pricesData : List (ℕ × Price)
  userCurrentId : ℕ
  storeCurrentId : ℕ
  priceCurrentId : ℕ
deriving Repr

/-- The state the `MemStorage` constructor builds before `initSampleData`. -/
def emptyStorage : MemStorage :=
  { usersData := [], storesData := [], pricesData := []
    userCurrentId := 1, storeCurrentId := 1, priceCurrentId := 1 }

/-- `getStores()`. -/
def getStores (st : MemStorage) : List Store := mapValues st.storesData

/-- `getStore(id)`. -/
def getStore (st : MemStorage) (id : ℕ) : Option Store := mapGet st.storesData id

/-- `createStore(insertStore)`: assign `id := storeCurrentId++` and insert. -/
def createStore (st : MemStorage) (ins : InsertStore) : Store × MemStorage :=
  let id := st.storeCurrentId
  let store : Store :=
    { id := id, name := ins.name, address := ins.address, city := ins.city
      state := ins.state, zipCode := ins.zipCode, latitude := ins.latitude
      longitude := ins.longitude, phone := ins.phone, website := ins.website
      hours := ins.hours }
  (store, { st with storesData := mapSet st.storesData id store
                    storeCurrentId := id + 1 })

/-- `getPrices()`. -/
def getPrices (st : MemStorage) : List Price := mapValues st.pricesData

/-- The comparator `(a, b) => new Date(b.recordedAt).getTime() - new
Date(a.recordedAt).getTime()` sorts by `recordedAt` descending. -/
def newestFirst (a b : Price) : Bool := decide (b.recordedAt ≤ a.recordedAt)

/-- `getPricesByStoreId(storeId)`: that store's prices, newest first. -/
def getPricesByStoreId (st : MemStorage) (storeId : ℕ) : List Price :=
  ((getPrices st).filter (fun p => p.storeId == storeId)).mergeSort newestFirst

/-- `getLatestPriceByStore(storeId, eggType)`: filter by store and variant,
sort newest first, take the head (absent when there are no observations). -/
def getLatestPriceByStore (st : MemStorage) (storeId : ℕ) (eggType : String) :
    Option Price :=
  (((getPrices st).filter
      (fun p => p.storeId == storeId && p.eggType == eggType)).mergeSort
    newestFirst).head?

/-- `createPrice(insertPrice)`: assign `id := priceCurrentId++`, stamp
`recordedAt: new Date()` (the spread puts the caller's fields first, so the
explicit `recordedAt` always wins), and insert. -/
def createPrice (now : ℤ) (st : MemStorage) (ins : InsertPrice) :
    Price × MemStorage :=
  let id := st.priceCurrentId
  let price : Price :=
    { id := id, storeId := ins.storeId, eggType := ins.eggType
      price := ins.price, recordedAt := now }
  (price, { st with pricesData := mapSet st.pricesData id price
                    priceCurrentId := id + 1 })

/-- `StoreWithPrices`: a store joined with its latest price (as a number,
absent when none) and its price history for the requested variant. -/
structure StoreWithPrices extends Store where
  currentPrice : Option ℚ
  priceHistory : List Price
deriving Repr, DecidableEq

/-- `getStoresWithPrices(storeIds, eggType)`: for each id resolve the store
(ids that resolve to no store are dropped by the final `filter`), join the
latest price and history for the requested variant. -/
def getStoresWithPrices (st : MemStorage) (storeIds : List ℕ)
    (eggType : String) : List StoreWithPrices :=
  storeIds.filterMap fun id =>
    (getStore st id).map fun store =>
      { store with
        currentPrice := (getLatestPriceByStore st id eggType).map (·.price)
        priceHistory := (getPricesByStoreId st id).filter
          (fun p => p.eggType == eggType) }

/-! ## Repository well-formedness -/

/-- Every key of the stores map is below the counter and is its record's id,
and the keys are distinct. Established by construction; the constructor's
`initSampleData` also only ever inserts at the incremented counter. -/
def storesWF (st : MemStorage) : Prop :=
  (∀ kv ∈ st.storesData, kv.1 = kv.2.id ∧ kv.1 < st.storeCurrentId) ∧
    (mapKeys st.storesData).Nodup

/-- The analogous invariant for the prices map. -/
def pricesWF (st : MemStorage) : Prop :=
  (∀ kv ∈ st.pricesData, kv.1 = kv.2.id ∧ kv.1 < st.priceCurrentId) ∧
    (mapKeys st.pricesData).Nodup

/-- Both map invariants at once. -/
def storageWF (st : MemStorage) : Prop := storesWF st ∧ pricesWF st

theorem storesWF_fresh {st : MemStorage} (h : storesWF st) :
    st.storeCurrentId ∉ mapKeys st.storesData := by
  intro hmem
  rcases List.mem_map.mp hmem with ⟨kv, hkv, hk⟩
  exact absurd (hk ▸ (h.1 kv hkv).2) (lt_irrefl _)

theorem pricesWF_fresh {st : MemStorage} (h : pricesWF st) :
    st.priceCurrentId ∉ mapKeys st.pricesData := by
  intro hmem
  rcases List.mem_map.mp hmem with ⟨kv, hkv, hk⟩
  exact absurd (hk ▸ (h.1 kv hkv).2) (lt_irrefl _)

theorem createStore_storesData {st : MemStorage} (h : storesWF st)
    (ins : InsertStore) :
    (createStore st ins).2.storesData =
      st.storesData ++ [(st.storeCurrentId, (createStore st ins).1)] :=
  mapSet_fresh _ _ _ (storesWF_fresh h)

theorem createPrice_pricesData {st : MemStorage} (h : pricesWF st)
    (now : ℤ) (ins : InsertPrice) :
    (createPrice now st ins).2.pricesData =
      st.pricesData ++ [(st.priceCurrentId, (createPrice now st ins).1)] :=
  mapSet_fresh _ _ _ (pricesWF_fresh h)

theorem createStore_storesWF {st : MemStorage} (h : storesWF st)
    (ins : InsertStore) : storesWF (createStore st ins).2 := by
  constructor
  · intro kv hkv
    rw [createStore_storesData h] at hkv
    rcases List.mem_append.mp hkv with hold | hnew
    · exact ⟨(h.1 kv hold).1, Nat.lt_succ_of_lt (h.1 kv hold).2⟩
    · simp only [List.mem_singleton] at hnew
      subst hnew
      exact ⟨rfl, Nat.lt_succ_self _⟩
  · rw [createStore_storesData h, mapKeys_append]
    refine List.Nodup.append h.2 (List.nodup_singleton _) ?_
    intro k hk hk1
    simp only [mapKeys, List.map_cons, List.map_nil, List.mem_singleton] at hk1
    exact storesWF_fresh h (hk1 ▸ hk)

theorem createStore_pricesWF {st : MemStorage} (h : pricesWF st)
    (ins : InsertStore) : pricesWF (createStore st ins).2 := h

theorem createPrice_pricesWF {st : MemStorage} (h : pricesWF st)
    (now : ℤ) (ins : InsertPrice) : pricesWF (createPrice now st ins).2 := by
  constructor
  · intro kv hkv
    rw [createPrice_pricesData h] at hkv
    rcases List.mem_append.mp hkv with hold | hnew
    · exact ⟨(h.1 kv hold).1, Nat.lt_succ_of_lt (h.1 kv hold).2⟩
    · simp only [List.mem_singleton] at hnew
      subst hnew
      exact ⟨rfl, Nat.lt_succ_self _⟩
  · rw [createPrice_pricesData h, mapKeys_append]
    refine List.Nodup.append h.2 (List.nodup_singleton _) ?_
    intro k hk hk1
    simp only [mapKeys, List.map_cons, List.map_nil, List.mem_singleton] at hk1
    exact pricesWF_fresh h (hk1 ▸ hk)

theorem createPrice_storesWF {st : MemStorage} (h : storesWF st)
    (now : ℤ) (ins : InsertPrice) : storesWF (createPrice now st ins).2 := h

/-! ## Claims about the repository operations -/

theorem latest_sorted (l : List Price) {p : Price}
    (hp : (l.mergeSort newestFirst).head? = some p) :
    p ∈ l ∧ ∀ q ∈ l, q.recordedAt ≤ p.recordedAt := by
  have trans : ∀ a b c : Price, newestFirst a b → newestFirst b c →
      newestFirst a c := by
    intro a b c hab hbc
    simp only [newestFirst, decide_eq_true_eq] at *
    exact le_trans hbc hab
  have total : ∀ a b : Price, newestFirst a b || newestFirst b a := by
    intro a b
    simp only [newestFirst, Bool.or_eq_true, decide_eq_true_eq]
    exact le_total b.recordedAt a.recordedAt
  have hsorted := List.sorted_mergeSort trans total l
  rcases List.head?_eq_some_iff.mp hp with ⟨ys, hys⟩
  rw [hys] at hsorted
  have hmem : p ∈ l := List.mem_mergeSort.mp (hys ▸ List.mem_cons_self p ys)
  refine ⟨hmem, fun q hq => ?_⟩
  have hq2 : q ∈ p :: ys := hys ▸ List.mem_mergeSort.mpr hq
  rcases List.mem_cons.mp hq2 with rfl | hq3
  · exact le_refl _
  · have := (List.pairwise_cons.mp hsorted).1 q hq3
    simpa [newestFirst] using this

/-- Claim C5: `getLatestPriceByStore(vendorId, variant)` returns an
observation of that vendor and variant whose `recordedAt` is maximal among
all such observations (ties broken arbitrarily), and returns `none` — not an
error — exactly when the vendor has no observation of that variant. -/
theorem c5_latest_price (st : MemStorage) (storeId : ℕ) (eggType : String) :
    (getLatestPriceByStore st storeId eggType = none ↔
      (getPrices st).filter
        (fun p => p.storeId == storeId && p.eggType == eggType) = []) ∧
    ∀ p, getLatestPriceByStore st storeId eggType = some p →
      (p ∈ (getPrices st).filter
          (fun p => p.storeId == storeId && p.eggType == eggType)) ∧
      ∀ q ∈ (getPrices st).filter
          (fun p => p.storeId == storeId && p.eggType == eggType),
        q.recordedAt ≤ p.recordedAt := by
  constructor
  · rw [getLatestPriceByStore, List.head?_eq_none_iff]
    constructor
    · intro h
      have := congrArg List.length h
      rw [List.length_mergeSort] at this
      exact List.length_eq_zero.mp this
    · intro h
      rw [h]
      simp
  · intro p hp
    exact latest_sorted _ hp

/-- Claim C5 witness: a concrete repository with two brown observations for
store 7 (timestamps 5 and 9) and a white one; the latest brown is the one
recorded at 9, and a vendor with no white observation gets `none`. -/
theorem c5_latest_price_witness :
    getLatestPriceByStore
        { emptyStorage with
          pricesData :=
            [(1, { id := 1, storeId := 7, eggType := "brown", price := 4,
                   recordedAt := 5 }),
             (2, { id := 2, storeId := 7, eggType := "brown", price := 5,
                   recordedAt := 9 }),
             (3, { id := 3, storeId := 7, eggType := "white", price := 3,
                   recordedAt := 11 })]
          priceCurrentId := 4 } 7 "brown" ≠ none := by
  have h := (c5_latest_price
    { emptyStorage with
      pricesData :=
        [(1, { id := 1, storeId := 7, eggType := "brown", price := 4,
               recordedAt := 5 }),
         (2, { id := 2, storeId := 7, eggType := "brown", price := 5,
               recordedAt := 9 }),
         (3, { id := 3, storeId := 7, eggType := "white", price := 3,
               recordedAt := 11 })]
      priceCurrentId := 4 } 7 "brown").1
  intro hnone
  simpa [getPrices, emptyStorage, mapValues] using h.mp hnone

/-- Claim C1 (counterexample): `createPrice` does not check that the vendor
exists. Against the empty repository — where vendor 42 does not exist — the
insert succeeds, mutates the prices map, and stores a record whose
`storeId` is the unknown vendor id 42, contradicting the claim that it
signals an error and leaves the repository unchanged. -/
theorem c1_counterexample :
    getStore emptyStorage 42 = none ∧
    (createPrice 0 emptyStorage
      { storeId := 42, eggType := "brown", price := 499/100,
        recordedAt := none }).2.pricesData ≠ emptyStorage.pricesData ∧
    (createPrice 0 emptyStorage
      { storeId := 42, eggType := "brown", price := 499/100,
        recordedAt := none }).1.storeId = 42 ∧
    42 ∈ (getPrices (createPrice 0 emptyStorage
      { storeId := 42, eggType := "brown", price := 499/100,
        recordedAt := none }).2).map (·.storeId) := by
  refine ⟨rfl, ?_, rfl, ?_⟩
  · intro h
    simp [createPrice, emptyStorage, mapSet] at h
  · simp [createPrice, emptyStorage, mapSet, getPrices, mapValues]

/-- Claim C1 (amended): `createPrice` performs no referential-integrity
check. For every insert whose vendor id does not name an existing vendor it
still succeeds: the repository is mutated and the stored record carries the
unknown vendor id. -/
theorem c1_amended (now : ℤ) (st : MemStorage) (ins : InsertPrice)
    (hwf : pricesWF st) (_hunknown : getStore st ins.storeId = none) :
    (createPrice now st ins).1.storeId = ins.storeId ∧
    getPrices (createPrice now st ins).2 =
      getPrices st ++ [(createPrice now st ins).1] := by
  refine ⟨rfl, ?_⟩
  unfold getPrices
  rw [createPrice_pricesData hwf, mapValues_append]
  rfl

/-- Claim C1 amended witness: the amended statement applied at the concrete
unknown vendor id 42 against the empty repository. -/
theorem c1_amended_witness :
    (createPrice 0 emptyStorage
      { storeId := 42, eggType := "brown", price := 499/100,
        recordedAt := none }).1.storeId = 42 :=
  (c1_amended 0 emptyStorage
    { storeId := 42, eggType := "brown", price := 499/100,
      recordedAt := none }
    ⟨(by intro kv h; cases h), List.nodup_nil⟩ rfl).1

theorem mapValues_mapSet {α : Type} (m : List (ℕ × α)) (k : ℕ) (v : α) :
    ∀ x ∈ mapValues (mapSet m k v), x ∈ mapValues m ∨ x = v := by
  induction m with
  | nil =>
    intro x hx
    simp only [mapSet, mapValues, List.map_cons, List.map_nil,
      List.mem_singleton] at hx
    exact Or.inr hx
  | cons kv rest ih =>
    obtain ⟨k₀, v₀⟩ := kv
    intro x hx
    simp only [mapSet] at hx
    by_cases hk : k₀ = k
    · rw [if_pos hk] at hx
      simp only [mapValues, List.map_cons, List.mem_cons] at hx ⊢
      rcases hx with rfl | hx
      · exact Or.inr rfl
      · exact Or.inl (Or.inr hx)
    · rw [if_neg hk] at hx
      simp only [mapValues, List.map_cons, List.mem_cons] at hx ⊢
      rcases hx with rfl | hx
      · exact Or.inl (Or.inl rfl)
      · rcases ih x hx with h | h
        · exact Or.inl (Or.inr h)
        · exact Or.inr h

/-- Claim C10: `createPrice` stamps the stored observation with the clock
time of the call (`recordedAt: new Date()` wins over anything the caller
spread into the insert), so every observation a call adds carries the call
time — no past or future timestamp can be created through it. -/
theorem c10_recorded_at (now : ℤ) (st : MemStorage) (ins : InsertPrice) :
    (createPrice now st ins).1.recordedAt = now ∧
    ∀ p ∈ getPrices (createPrice now st ins).2,
      p ∈ getPrices st ∨ p.recordedAt = now := by
  refine ⟨rfl, fun p hp => ?_⟩
  have := mapValues_mapSet st.pricesData st.priceCurrentId
    (createPrice now st ins).1 p hp
  rcases this with h | h
  · exact Or.inl h
  · exact Or.inr (by rw [h]; rfl)

/-- Claim C8: identities are assigned by the repository (the insert types
carry no id field), equal the current counter, are fresh — strictly greater
than every stored id of their kind, hence never reused — and both create
operations preserve the well-formedness invariant while bumping the counter,
so successive creations get strictly increasing ids. -/
theorem c8_identity_assignment (st : MemStorage) (h : storageWF st)
    (ins : InsertStore) (insP : InsertPrice) (now : ℤ) :
    (createStore st ins).1.id = st.storeCurrentId ∧
    (∀ s ∈ getStores st, s.id < (createStore st ins).1.id) ∧
    (createStore st ins).2.storeCurrentId = (createStore st ins).1.id + 1 ∧
    storageWF (createStore st ins).2 ∧
    (createPrice now st insP).1.id = st.priceCurrentId ∧
    (∀ p ∈ getPrices st, p.id < (createPrice now st insP).1.id) ∧
    (createPrice now st insP).2.priceCurrentId =
      (createPrice now st insP).1.id + 1 ∧
    storageWF (createPrice now st insP).2 := by
  refine ⟨rfl, ?_, rfl, ⟨createStore_storesWF h.1 ins,
    createStore_pricesWF h.2 ins⟩, rfl, ?_, rfl,
    ⟨createPrice_storesWF h.1 now insP, createPrice_pricesWF h.2 now insP⟩⟩
  · intro s hs
    rcases List.mem_map.mp hs with ⟨kv, hkv, hv⟩
    have := h.1.1 kv hkv
    exact hv ▸ this.1 ▸ this.2
  · intro p hp
    rcases List.mem_map.mp hp with ⟨kv, hkv, hv⟩
    have := h.2.1 kv hkv
    exact hv ▸ this.1 ▸ this.2

/-- Claim C8 witness: on the empty repository (well-formed by computation)
the first store created gets id 1 and the counter moves to 2. -/
theorem c8_identity_assignment_witness :
    (createStore emptyStorage
      { name := "A", address := "B", city := "C", state := "D",
        zipCode := "11111", latitude := some 1, longitude := some 2,
        phone := none, website := none, hours := none }).1.id = 1 ∧
    (createStore emptyStorage
      { name := "A", address := "B", city := "C", state := "D",
        zipCode := "11111", latitude := some 1, longitude := some 2,
        phone := none, website := none, hours := none }).2.storeCurrentId = 2 := by
  have h := c8_identity_assignment emptyStorage
    ⟨⟨(by intro kv hkv; cases hkv), List.nodup_nil⟩,
     ⟨(by intro kv hkv; cases hkv), List.nodup_nil⟩⟩
    { name := "A", address := "B", city := "C", state := "D",
      zipCode := "11111", latitude := some 1, longitude := some 2,
      phone := none, website := none, hours := none }
    { storeId := 1, eggType := "brown", price := 4, recordedAt := none } 0
  exact ⟨h.1, by rw [h.2.2.1, h.1]; rfl⟩

/-! ## Coordinate resolver (`server/utils/geocoding.ts`) -/

/-- The TS `Coordinates` type; fields may be `NaN` (`none`) when derived from
failed digit parses. -/
structure Coordinates where
  lat : JSNum
  lng : JSNum
deriving Repr, DecidableEq

/-- The hardcoded zip-code → coordinates table of `getCoordinatesForZipCode`. -/
def zipCoordinates : List (String × ℚ × ℚ) :=
  [("94110", 37.7489, -122.4215),
   ("94105", 37.7897, -122.3995),
   ("94107", 37.7697, -122.3933),
   ("94103", 37.7726, -122.4099),
   ("94102", 37.7797, -122.4186),
   ("80126", 39.5486, -104.9719),
   ("80129", 39.5410, -105.0210),
   ("80130", 39.5630, -104.9160),
   ("80124", 39.5290, -104.8871),
   ("80125", 39.4879, -105.0055),
   ("80202", 39.7533, -104.9937),
   ("80209", 39.7108, -104.9550),
   ("80401", 39.7555, -105.2211),
   ("33426", 26.6765, -80.1256),
   ("33433", 26.3749, -80.1489),
   ("33444", 26.4665, -80.0720),
   ("33458", 26.9256, -80.1145),
   ("33409", 26.7070, -80.0894),
   ("10001", 40.7501, -73.9950),
   ("60601", 41.8855, -87.6221),
   ("90001", 33.9731, -118.2479),
   ("75001", 32.9617, -96.8946)]

/-- `zipCode in zipCoordinates` followed by `zipCoordinates[zipCode]`. -/
def lookupZip (z : String) : Option (ℚ × ℚ) :=
  (zipCoordinates.find? (fun e => e.1 == z)).map (·.2)

/-- `getCoordinatesForZipCode`: exact table hit, else the 8011x/8012x/8013x
nearby-offset rule, else the Florida special case, else a regional anchor
from the first digit refined by an offset from digits 4–5.  The trailing
unreachable code after the final `return` in the source is dead and not
modelled.  The function never returns `null`. -/
def getCoordinatesForZipCode (zipCode : String) : Option Coordinates :=
  match lookupZip zipCode with
  | some c => some ⟨some c.1, some c.2⟩
  | none =>
    if jsStartsWith zipCode "8012" || jsStartsWith zipCode "8013" ||
        jsStartsWith zipCode "8011" then
      let lastDigit := js_parseInt (jsCharAt zipCode 4)
      let offset := jmul (lastDigit.map (fun n => (n : ℚ))) (some (1/100))
      some ⟨jadd (some (39.5486 : ℚ)) offset,
            jsub (some (-104.9719 : ℚ)) offset⟩
    else if jsStartsWith zipCode "33" || jsStartsWith zipCode "34" then
      let base : ℚ × ℚ :=
        if jsStartsWith zipCode "33" then (26.2, -80.3) else (28.1, -82.4)
      let lastDigits := js_parseInt (jsSubstring zipCode 3 5)
      let latOffset :=
        jmul (lastDigits.map (fun n => (jsRem n 10 : ℚ))) (some (2/100))
      let lngOffset :=
        jmul (lastDigits.map (fun n => (jsRem n 7 : ℚ))) (some (3/100))
      some ⟨jadd (some base.1) latOffset, jsub (some base.2) lngOffset⟩
    else
      let firstDigit := js_parseInt (jsCharAt zipCode 0)
      let base : ℚ × ℚ :=
        match firstDigit with
        | some 0 => (42.5, -71.5)
        | some 1 => (40.8, -74.0)
        | some 2 => (37.5, -77.5)
        | some 3 => (34.0, -85.0)
        | some 4 => (40.0, -84.0)
        | some 5 => (43.5, -93.0)
        | some 6 => (39.0, -92.0)
        | some 7 => (32.0, -97.0)
        | some 8 => (39.0, -106.0)
        | some 9 =>
          if jsStartsWith zipCode "90" || jsStartsWith zipCode "91" then
            (34.0, -118.2)
          else if jsStartsWith zipCode "94" || jsStartsWith zipCode "95" then
            (37.7, -122.4)
          else if jsStartsWith zipCode "98" || jsStartsWith zipCode "99" then
            (47.6, -122.3)
          else if jsStartsWith zipCode "96" || jsStartsWith zipCode "97" then
            (45.5, -122.6)
          else (36.0, -119.0)
        | _ => (39.8, -98.5)
      let lastDigits := js_parseInt (jsSubstring zipCode 3 5)
      let latOffset :=
        jmul (lastDigits.map (fun n => (jsRem n 10 : ℚ))) (some (2/100))
      let lngOffset :=
        jmul (lastDigits.map (fun n => (jsRem n 7 : ℚ))) (some (15/1000))
      some ⟨jadd (some base.1) latOffset, jsub (some base.2) lngOffset⟩

/-- Claim C6: the coordinate resolver is a pure function of the postal-code
string — two calls on the same input give identical coordinates — and it
evaluates to definite concrete values both on an exact-table hit (`"94110"`)
and through the regional fallback derivation (`"99999"`: Pacific-Northwest
anchor (47.6, -122.3) plus the digit-derived offset (0.18, -0.015)). -/
theorem geocode_94110 :
    getCoordinatesForZipCode "94110" =
      some ⟨some (37.7489 : ℚ), some (-122.4215 : ℚ)⟩ := rfl

theorem geocode_99999 :
    getCoordinatesForZipCode "99999" =
      some ⟨some (47.78 : ℚ), some (-122.315 : ℚ)⟩ := by
  have h : getCoordinatesForZipCode "99999" =
      some ⟨some ((47.6 : ℚ) + (jsRem 99 10 : ℚ) * (2/100)),
            some ((-122.3 : ℚ) - (jsRem 99 7 : ℚ) * (15/1000))⟩ := rfl
  rw [h]
  have h10 : jsRem 99 10 = 9 := by decide
  have h7 : jsRem 99 7 = 1 := by decide
  rw [h10, h7]
  norm_num

theorem c6_resolver_deterministic :
    (∀ z : String,
      getCoordinatesForZipCode z = getCoordinatesForZipCode z) ∧
    getCoordinatesForZipCode "94110" =
      some ⟨some (37.7489 : ℚ), some (-122.4215 : ℚ)⟩ ∧
    getCoordinatesForZipCode "99999" =
      some ⟨some (47.78 : ℚ), some (-122.315 : ℚ)⟩ :=
  ⟨fun _ => rfl, geocode_94110, geocode_99999⟩

/-! ## Price refresh scheduler (`server/cron.ts`) -/

/-- `updatePricesForStore(storeId)`: read the latest brown and white
observations; when either is missing, warn and skip — the state is
unchanged.  Otherwise apply a ±5% multiplicative perturbation (the store's
two `Math.random()` draws are the oracle pair `u`), round to cents, and
append one new observation per variant through `createPrice`.  The TS
`catch` is unreachable here because no step of the body throws. -/
def updatePricesForStore (now : ℤ) (u : ℚ × ℚ) (st : MemStorage)
    (storeId : ℕ) : MemStorage :=
  match getLatestPriceByStore st storeId "brown",
        getLatestPriceByStore st storeId "white" with
  | some latestBrownPrice, some latestWhitePrice =>
    let brownVariation := u.1 * (1/10) - 5/100
    let whiteVariation := u.2 * (1/10) - 5/100
    let newBrownPrice :=
      (jsRound (latestBrownPrice.price * (1 + brownVariation) * 100) : ℚ) / 100
    let newWhitePrice :=
      (jsRound (latestWhitePrice.price * (1 + whiteVariation) * 100) : ℚ) / 100
    let st1 := (createPrice now st
      { storeId := storeId, eggType := "brown", price := newBrownPrice,
        recordedAt := none }).2
    (createPrice now st1
      { storeId := storeId, eggType := "white", price := newWhitePrice,
        recordedAt := none }).2
  | _, _ => st

/-- `updateEggPrices()`: snapshot the store list once, then update each
store in turn.  The oracle `rand` supplies each store's two random draws. -/
def updateEggPrices (now : ℤ) (rand : ℕ → ℚ × ℚ) (st : MemStorage) :
    MemStorage :=
  (getStores st).foldl
    (fun acc s => updatePricesForStore now (rand s.id) acc s.id) st

/-- The observations currently stored for one vendor. -/
def pricesOfStore (st : MemStorage) (sid : ℕ) : List Price :=
  (getPrices st).filter (fun p => p.storeId == sid)

theorem getLatest_eq_of_pricesOfStore_eq (st₁ st₂ : MemStorage) (sid : ℕ)
    (e : String) (h : pricesOfStore st₁ sid = pricesOfStore st₂ sid) :
    getLatestPriceByStore st₁ sid e = getLatestPriceByStore st₂ sid e := by
  unfold getLatestPriceByStore
  unfold pricesOfStore at h
  have key : ∀ st : MemStorage,
      (getPrices st).filter (fun p => p.storeId == sid && p.eggType == e) =
        ((getPrices st).filter (fun p => p.storeId == sid)).filter
          (fun p => p.eggType == e) := by
    intro st
    rw [List.filter_filter]
    refine List.filter_congr ?_
    intro a _
    rw [Bool.and_comm]
  rw [key, key, h]

theorem createPrice_pricesOfStore (st : MemStorage) (hwf : pricesWF st)
    (now : ℤ) (ins : InsertPrice) (x : ℕ) :
    pricesOfStore (createPrice now st ins).2 x =
      if ins.storeId = x then
        pricesOfStore st x ++ [(createPrice now st ins).1]
      else pricesOfStore st x := by
  unfold pricesOfStore getPrices
  rw [createPrice_pricesData hwf, mapValues_append]
  rw [List.filter_append]
  have hfst : (createPrice now st ins).1.storeId = ins.storeId := rfl
  by_cases h : ins.storeId = x
  · rw [if_pos h]
    simp [mapValues, hfst, h]
  · rw [if_neg h]
    simp [mapValues, hfst, h]

theorem updatePricesForStore_skip (now : ℤ) (u : ℚ × ℚ) (st : MemStorage)
    (sid : ℕ)
    (h : getLatestPriceByStore st sid "brown" = none ∨
      getLatestPriceByStore st sid "white" = none) :
    updatePricesForStore now u st sid = st := by
  unfold updatePricesForStore
  split
  · rename_i lb lw heq
    rcases h with h | h <;> simp_all
  · rfl

theorem updatePricesForStore_eq (now : ℤ) (u : ℚ × ℚ) (st : MemStorage)
    (sid : ℕ) {lb lw : Price}
    (hb : getLatestPriceByStore st sid "brown" = some lb)
    (hw : getLatestPriceByStore st sid "white" = some lw) :
    updatePricesForStore now u st sid =
      (createPrice now
        (createPrice now st
          { storeId := sid, eggType := "brown"
            price := (jsRound (lb.price * (1 + (u.1 * (1/10) - 5/100)) * 100) : ℚ) / 100
            recordedAt := none }).2
        { storeId := sid, eggType := "white"
          price := (jsRound (lw.price * (1 + (u.2 * (1/10) - 5/100)) * 100) : ℚ) / 100
          recordedAt := none }).2 := by
  unfold updatePricesForStore
  rw [hb, hw]

theorem updatePricesForStore_frame (now : ℤ) (u : ℚ × ℚ) (st : MemStorage)
    (sid : ℕ) (hwf : pricesWF st) (x : ℕ) (hx : x ≠ sid) :
    pricesOfStore (updatePricesForStore now u st sid) x =
      pricesOfStore st x ∧
    pricesWF (updatePricesForStore now u st sid) := by
  rcases hb : getLatestPriceByStore st sid "brown" with _ | lb
  · rw [updatePricesForStore_skip now u st sid (Or.inl hb)]
    exact ⟨rfl, hwf⟩
  rcases hw : getLatestPriceByStore st sid "white" with _ | lw
  · rw [updatePricesForStore_skip now u st sid (Or.inr hw)]
    exact ⟨rfl, hwf⟩
  rw [updatePricesForStore_eq now u st sid hb hw]
  have hwf1 := createPrice_pricesWF hwf now
    { storeId := sid, eggType := "brown"
      price := (jsRound (lb.price * (1 + (u.1 * (1/10) - 5/100)) * 100) : ℚ) / 100
      recordedAt := none }
  constructor
  · rw [createPrice_pricesOfStore _ hwf1 now _ x, if_neg (fun e => hx e.symm),
      createPrice_pricesOfStore _ hwf now _ x, if_neg (fun e => hx e.symm)]
  · exact createPrice_pricesWF hwf1 now _

theorem updatePricesForStore_grows (now : ℤ) (u : ℚ × ℚ) (st : MemStorage)
    (sid : ℕ) (hwf : pricesWF st) {lb lw : Price}
    (hb : getLatestPriceByStore st sid "brown" = some lb)
    (hw : getLatestPriceByStore st sid "white" = some lw) :
    (pricesOfStore (updatePricesForStore now u st sid) sid).length =
      (pricesOfStore st sid).length + 2 := by
  rw [updatePricesForStore_eq now u st sid hb hw]
  have hwf1 := createPrice_pricesWF hwf now
    { storeId := sid, eggType := "brown"
      price := (jsRound (lb.price * (1 + (u.1 * (1/10) - 5/100)) * 100) : ℚ) / 100
      recordedAt := none }
  rw [createPrice_pricesOfStore _ hwf1 now _ sid, if_pos rfl,
    createPrice_pricesOfStore _ hwf now _ sid, if_pos rfl]
  simp

theorem updatePricesForStore_wf (now : ℤ) (u : ℚ × ℚ) (st : MemStorage)
    (sid : ℕ) (hwf : pricesWF st) :
    pricesWF (updatePricesForStore now u st sid) := by
  rcases hb : getLatestPriceByStore st sid "brown" with _ | lb
  · rw [updatePricesForStore_skip now u st sid (Or.inl hb)]
    exact hwf
  rcases hw : getLatestPriceByStore st sid "white" with _ | lw
  · rw [updatePricesForStore_skip now u st sid (Or.inr hw)]
    exact hwf
  rw [updatePricesForStore_eq now u st sid hb hw]
  exact createPrice_pricesWF (createPrice_pricesWF hwf now _) now _

theorem foldUpdate_frame (now : ℤ) (rand : ℕ → ℚ × ℚ) (v : ℕ) :
    ∀ (l : List Store) (acc : MemStorage), pricesWF acc →
      (∀ s ∈ l, s.id ≠ v) →
      pricesOfStore
          (l.foldl (fun a s => updatePricesForStore now (rand s.id) a s.id)
            acc) v = pricesOfStore acc v ∧
        pricesWF
          (l.foldl (fun a s => updatePricesForStore now (rand s.id) a s.id)
            acc) := by
  intro l
  induction l with
  | nil => exact fun acc h _ => ⟨rfl, h⟩
  | cons s rest ih =>
    intro acc hacc hids
    simp only [List.foldl_cons]
    have h1 := updatePricesForStore_frame now (rand s.id) acc s.id hacc v
      (Ne.symm (hids s (List.mem_cons_self s rest)))
    have h2 := ih _ h1.2 (fun t ht => hids t (List.mem_cons_of_mem _ ht))
    exact ⟨h2.1.trans h1.1, h2.2⟩

theorem foldUpdate_missing (now : ℤ) (rand : ℕ → ℚ × ℚ) (v : ℕ) :
    ∀ (l : List Store) (acc : MemStorage), pricesWF acc →
      (getLatestPriceByStore acc v "brown" = none ∨
        getLatestPriceByStore acc v "white" = none) →
      pricesOfStore
          (l.foldl (fun a s => updatePricesForStore now (rand s.id) a s.id)
            acc) v = pricesOfStore acc v ∧
        pricesWF
          (l.foldl (fun a s => updatePricesForStore now (rand s.id) a s.id)
            acc) := by
  intro l
  induction l with
  | nil => exact fun acc h _ => ⟨rfl, h⟩
  | cons s rest ih =>
    intro acc hacc hmiss
    simp only [List.foldl_cons]
    by_cases hsv : s.id = v
    · subst hsv
      rw [updatePricesForStore_skip now (rand s.id) acc s.id hmiss]
      exact ih acc hacc hmiss
    · have h1 := updatePricesForStore_frame now (rand s.id) acc s.id hacc v
        (fun e => hsv e.symm)
      have hlat := getLatest_eq_of_pricesOfStore_eq _ _ v "brown" h1.1
      have hlat2 := getLatest_eq_of_pricesOfStore_eq _ _ v "white" h1.1
      have hstill : getLatestPriceByStore
            (updatePricesForStore now (rand s.id) acc s.id) v "brown" = none ∨
          getLatestPriceByStore
            (updatePricesForStore now (rand s.id) acc s.id) v "white" = none := by
        rcases hmiss with h | h
        · exact Or.inl (hlat.trans h)
        · exact Or.inr (hlat2.trans h)
      have h2 := ih _ h1.2 hstill
      exact ⟨h2.1.trans h1.1, h2.2⟩

theorem foldUpdate_grows (now : ℤ) (rand : ℕ → ℚ × ℚ) (wid : ℕ) :
    ∀ (l : List Store) (acc : MemStorage), pricesWF acc →
      (l.map (·.id)).Nodup → (∃ s ∈ l, s.id = wid) →
      ∀ lb lw, getLatestPriceByStore acc wid "brown" = some lb →
        getLatestPriceByStore acc wid "white" = some lw →
        (pricesOfStore
            (l.foldl (fun a s => updatePricesForStore now (rand s.id) a s.id)
              acc) wid).length = (pricesOfStore acc wid).length + 2 := by
  intro l
  induction l with
  | nil =>
    intro acc _ _ hmem
    rcases hmem with ⟨s, hs, _⟩
    cases hs
  | cons s rest ih =>
    intro acc hacc hnodup hmem lb lw hb hw
    simp only [List.foldl_cons]
    by_cases hsw : s.id = wid
    · subst hsw
      have hgrow := updatePricesForStore_grows now (rand s.id) acc s.id hacc
        hb hw
      have hrest : ∀ t ∈ rest, t.id ≠ s.id := by
        intro t ht he
        have hmm : s.id ∈ rest.map (·.id) :=
          he ▸ List.mem_map_of_mem (·.id) ht
        exact (List.nodup_cons.mp hnodup).1 hmm
      have hframe := foldUpdate_frame now rand s.id rest _
        (updatePricesForStore_wf now (rand s.id) acc s.id hacc) hrest
      rw [hframe.1, hgrow]
    · have hmem2 : ∃ t ∈ rest, t.id = wid := by
        rcases hmem with ⟨t, ht, hte⟩
        rcases List.mem_cons.mp ht with rfl | htr
        · exact absurd hte hsw
        · exact ⟨t, htr, hte⟩
      have h1 := updatePricesForStore_frame now (rand s.id) acc s.id hacc wid
        (fun e => hsw e.symm)
      have hlatb := getLatest_eq_of_pricesOfStore_eq _ _ wid "brown" h1.1
      have hlatw := getLatest_eq_of_pricesOfStore_eq _ _ wid "white" h1.1
      have h2 := ih _ h1.2 (List.nodup_cons.mp hnodup).2 hmem2 lb lw
        (hlatb.trans hb) (hlatw.trans hw)
      rw [h2, h1.1]

theorem storesWF_ids_nodup (st : MemStorage) (h : storesWF st) :
    ((getStores st).map (·.id)).Nodup := by
  have he : (getStores st).map (·.id) = mapKeys st.storesData := by
    unfold getStores mapValues mapKeys
    rw [List.map_map]
    refine List.map_congr_left ?_
    intro kv hkv
    exact ((h.1 kv hkv).1).symm
  rw [he]
  exact h.2

/-- Claim C7: on a scheduler run (`updateEggPrices`), a vendor whose latest
baseline observation is missing is skipped — the run appends no observation
for it — and that failure does not abort the run: every other vendor that
does have both baselines still gets its two new observations appended. -/
theorem c7_scheduler_isolation (now : ℤ) (rand : ℕ → ℚ × ℚ)
    (st : MemStorage) (hwf : storageWF st) (v : ℕ)
    (hmiss : getLatestPriceByStore st v "brown" = none ∨
      getLatestPriceByStore st v "white" = none) :
    pricesOfStore (updateEggPrices now rand st) v = pricesOfStore st v ∧
    ∀ w ∈ getStores st, w.id ≠ v →
      ∀ lb lw, getLatestPriceByStore st w.id "brown" = some lb →
        getLatestPriceByStore st w.id "white" = some lw →
        (pricesOfStore (updateEggPrices now rand st) w.id).length =
          (pricesOfStore st w.id).length + 2 := by
  constructor
  · exact (foldUpdate_missing now rand v (getStores st) st hwf.2 hmiss).1
  · intro w hwmem _ lb lw hb hw
    exact foldUpdate_grows now rand w.id (getStores st) st hwf.2
      (storesWF_ids_nodup st hwf.1) ⟨w, hwmem, rfl⟩ lb lw hb hw

/-- A two-vendor repository: vendor 1 has no observations at all, vendor 2
has one brown and one white baseline. -/
def sampleRepo : MemStorage :=
  { usersData := []
    storesData :=
      [(1, { id := 1, name := "A", address := "a", city := "c", state := "CO"
             zipCode := "80126", latitude := some 39, longitude := some (-104)
             phone := none, website := none, hours := none }),
       (2, { id := 2, name := "B", address := "b", city := "c", state := "CO"
             zipCode := "80126", latitude := some 39, longitude := some (-104)
             phone := none, website := none, hours := none })]
    pricesData :=
      [(1, { id := 1, storeId := 2, eggType := "brown", price := 4,
             recordedAt := 5 }),
       (2, { id := 2, storeId := 2, eggType := "white", price := 3,
             recordedAt := 5 })]
    userCurrentId := 1, storeCurrentId := 3, priceCurrentId := 3 }

theorem sampleRepo_wf : storageWF sampleRepo := by
  simp only [storageWF, storesWF, pricesWF]
  refine ⟨⟨?_, ?_⟩, ?_, ?_⟩ <;> decide

/-- Claim C7 witness: on `sampleRepo`, the run leaves skipped vendor 1's
observations unchanged and still appends two observations for vendor 2. -/
theorem c7_scheduler_isolation_witness :
    pricesOfStore (updateEggPrices 0 (fun _ => (0, 0)) sampleRepo) 1 =
      pricesOfStore sampleRepo 1 ∧
    (pricesOfStore (updateEggPrices 0 (fun _ => (0, 0)) sampleRepo) 2).length =
      (pricesOfStore sampleRepo 2).length + 2 := by
  have h := c7_scheduler_isolation 0 (fun _ => (0, 0)) sampleRepo sampleRepo_wf
    1 (Or.inl (by simp [getLatestPriceByStore, getPrices, sampleRepo,
      mapValues]))
  refine ⟨h.1, ?_⟩
  refine h.2 { id := 2, name := "B", address := "b", city := "c", state := "CO"
               zipCode := "80126", latitude := some 39
               longitude := some (-104)
               phone := none, website := none, hours := none }
    ?_ (by decide)
    { id := 1, storeId := 2, eggType := "brown", price := 4, recordedAt := 5 }
    { id := 2, storeId := 2, eggType := "white", price := 3, recordedAt := 5 }
    ?_ ?_
  · simp [getStores, sampleRepo, mapValues]
  · simp [getLatestPriceByStore, getPrices, sampleRepo, mapValues]
  · simp [getLatestPriceByStore, getPrices, sampleRepo, mapValues]

/-! ## Distance evaluator (`server/utils/geocoding.ts`) -/

/-- `toRad(degrees)`. -/
noncomputable def toRad (degrees : ℝ) : ℝ := degrees * Real.pi / 180

/-- JS `Math.atan2(y, x)` on non-NaN arguments. -/
noncomputable def atan2 (y x : ℝ) : ℝ :=
  if 0 < x then Real.arctan (y / x)
  else if x < 0 then
    (if 0 ≤ y then Real.arctan (y / x) + Real.pi
     else Real.arctan (y / x) - Real.pi)
  else
    (if 0 < y then Real.pi / 2
     else if y < 0 then -(Real.pi / 2)
     else 0)

/-- `calculateDistance(lat1, lng1, lat2, lng2)`: haversine great-circle
distance with Earth radius 3958.8 miles. -/
noncomputable def calculateDistance (lat1 lng1 lat2 lng2 : ℝ) : ℝ :=
  let R : ℝ := 3958.8
  let dLat := toRad (lat2 - lat1)
  let dLon := toRad (lng2 - lng1)
  let a := Real.sin (dLat / 2) * Real.sin (dLat / 2) +
    Real.cos (toRad lat1) * Real.cos (toRad lat2) *
    (Real.sin (dLon / 2) * Real.sin (dLon / 2))
  let c := 2 * atan2 (Real.sqrt a) (Real.sqrt (1 - a))
  R * c

/-- `isWithinRadius(centerLat, centerLng, pointLat, pointLng, radiusMiles)`. -/
noncomputable def isWithinRadius
    (centerLat centerLng pointLat pointLng radiusMiles : ℝ) : Bool :=
  decide (calculateDistance centerLat centerLng pointLat pointLng ≤
    radiusMiles)

/-- The route's filter applies `isWithinRadius` to `Number(store.latitude)`
etc.; if any coordinate is `NaN` the distance is `NaN` and the JS `<=`
comparison is false. -/
noncomputable def withinRadiusJS (clat clng plat plng : JSNum) (r : ℚ) :
    Bool :=
  match clat, clng, plat, plng with
  | some a, some b, some c, some d =>
    isWithinRadius (a : ℝ) (b : ℝ) (c : ℝ) (d : ℝ) (r : ℝ)
  | _, _, _, _ => false

/-! ## The search route (`server/routes.ts`, `GET /api/prices`) -/

/-- `getStateFromZip`: first zip digit → state abbreviation, default `"CO"`
(also for a `NaN` first digit, which hits the switch default). -/
def getStateFromZip (zipCode : String) : String :=
  match js_parseInt (jsCharAt zipCode 0) with
  | some 0 => "CT"
  | some 1 => "NY"
  | some 2 => "DC"
  | some 3 => "FL"
  | some 4 => "IN"
  | some 5 => "MI"
  | some 6 => "MO"
  | some 7 => "TX"
  | some 8 => "CO"
  | some 9 => "CA"
  | _ => "CO"

/-- The `regions` array of `getPlaceName`. -/
def regions : List String :=
  ["New England", "Metro", "Capital", "Coastal", "Great Lakes",
   "Midwestern", "Central", "Southern", "Mountain", "West Coast"]

/-- `getPlaceName`: region word from the first digit (JS indexing with `NaN`
yields `undefined`, rendered as `"undefined"` by the template literal), plus
a suffix from digits 4-5 (`NaN` fails every `<` test and falls through to
`"city"`). -/
def getPlaceName (zipCode : String) : String :=
  let regionStr : String :=
    match js_parseInt (jsCharAt zipCode 0) with
    | some d => regions.getD d.toNat "undefined"
    | none => "undefined"
  let suffix : String :=
    match js_parseInt (jsSubstring zipCode 3 5) with
    | some numValue =>
      if numValue < 20 then "ville"
      else if numValue < 40 then "town"
      else if numValue < 60 then "burg"
      else if numValue < 80 then "field"
      else "city"
    | none => "city"
  regionStr ++ " " ++ suffix

/-- The query parameters of `GET /api/prices` (absent = `undefined`). -/
structure PricesQuery where
  zipCode : Option String
  radius : Option String
  eggType : Option String
deriving Repr, DecidableEq

/-- What the handler sends: a 400 with a message, a 307 redirect back to the
same route, or a 200 `SearchResultsResponse` body. -/
inductive PricesResponse where
  | status400 (message : String)
  | redirect307 (q : PricesQuery)
  | ok (stores : List StoreWithPrices) (minPrice maxPrice : Option ℚ)
deriving Repr, DecidableEq

def zipMsg : String := "Invalid zip code. Must be 5 digits."

def radiusMsg : String := "Invalid radius. Must be between 1 and 20 miles."

def eggTypeMsg : String :=
  "Invalid egg type. Must be \x27white\x27 or \x27brown\x27."

def coordsMsg : String :=
  "Could not find coordinates for the provided zip code."

/-- `{ ...store, zipCode }` on a joined view. -/
def withZip (s : StoreWithPrices) (z : String) : StoreWithPrices :=
  { s with toStore := { s.toStore with zipCode := z } }

/-- `Math.round((base + (Math.random() * 0.4 - 0.2)) * 100) / 100`. -/
def demoPrice (base u : ℚ) : ℚ :=
  (jsRound ((base + (u * (4/10) - 2/10)) * 100) : ℚ) / 100

/-- The first demo store of the backfill ("Local Grocery", at the resolved
center). -/
def demoIns1 (zip : String) (c : Coordinates) : InsertStore :=
  { name := "Local Grocery", address := "123 Main Street"
    city := getPlaceName zip, state := getStateFromZip zip, zipCode := zip
    latitude := c.lat, longitude := c.lng
    phone := some "(555) 123-4567"
    website := some "https://www.localgrocery.com"
    hours := some "8:00 AM - 9:00 PM" }

/-- The second demo store ("Farmers Market", center + (0.01, -0.01)). -/
def demoIns2 (zip : String) (c : Coordinates) : InsertStore :=
  { name := "Farmers Market", address := "456 Oak Avenue"
    city := getPlaceName zip, state := getStateFromZip zip, zipCode := zip
    latitude := jadd c.lat (some (1/100))
    longitude := jsub c.lng (some (1/100))
    phone := some "(555) 987-6543"
    website := some "https://www.farmersmarket.com"
    hours := some "7:00 AM - 6:00 PM" }

/-- The third demo store ("Organic Essentials", center + (-0.02, 0.015)). -/
def demoIns3 (zip : String) (c : Coordinates) : InsertStore :=
  { name := "Organic Essentials", address := "789 Maple Drive"
    city := getPlaceName zip, state := getStateFromZip zip, zipCode := zip
    latitude := jsub c.lat (some (2/100))
    longitude := jadd c.lng (some (15/1000))
    phone := some "(555) 345-6789"
    website := some "https://www.organicstore.com"
    hours := some "9:00 AM - 8:00 PM" }

/-- One demo price insert (the caller passes `recordedAt: new Date()`). -/
def demoPriceIns (sid : ℕ) (egg : String) (base u : ℚ) (now : ℤ) :
    InsertPrice :=
  { storeId := sid, eggType := egg, price := demoPrice base u
    recordedAt := some now }

/-- Lines 77–170 of `routes.ts`: create the three demo stores anchored at
the resolved coordinate, give each one brown and one white observation
(`rand 0`–`rand 5` are the six `Math.random()` draws in source order), and
307-redirect to the same route with the parsed parameters. -/
def backfillDemoStores (rand : ℕ → ℚ) (now : ℤ) (st : MemStorage)
    (zip : String) (centerCoords : Coordinates) (r : ℤ) (egg : String) :
    PricesResponse × MemStorage :=
  let p1 := createStore st (demoIns1 zip centerCoords)
  let p2 := createStore p1.2 (demoIns2 zip centerCoords)
  let p3 := createStore p2.2 (demoIns3 zip centerCoords)
  let st4 := (createPrice now p3.2
    (demoPriceIns p1.1.id "brown" (429/100) (rand 0) now)).2
  let st5 := (createPrice now st4
    (demoPriceIns p2.1.id "brown" (459/100) (rand 1) now)).2
  let st6 := (createPrice now st5
    (demoPriceIns p3.1.id "brown" (489/100) (rand 2) now)).2
  let st7 := (createPrice now st6
    (demoPriceIns p1.1.id "white" (399/100) (rand 3) now)).2
  let st8 := (createPrice now st7
    (demoPriceIns p2.1.id "white" (419/100) (rand 4) now)).2
  let st9 := (createPrice now st8
    (demoPriceIns p3.1.id "white" (449/100) (rand 5) now)).2
  (.redirect307
    { zipCode := some zip, radius := some (toString r),
      eggType := some egg }, st9)

/-- Lines 179–208 of `routes.ts`: stamp the requested zip onto the filtered
stores, join prices, aggregate the envelope over the non-null
`currentPrice` values only, and answer 200. -/
def okResponse (st : MemStorage) (zip : String) (egg : String)
    (storesInRadius : List Store) : PricesResponse × MemStorage :=
  let storesWithZipCode := storesInRadius.map (fun s => { s with zipCode := zip })
  let storeIds := storesWithZipCode.map (·.id)
  let storesWithPrices := getStoresWithPrices st storeIds egg
  let prices := (storesWithPrices.map (·.currentPrice)).reduceOption
  let minPrice := if 0 < prices.length then foldMin prices else none
  let maxPrice := if 0 < prices.length then foldMax prices else none
  (.ok (storesWithPrices.map (fun s => withZip s zip)) minPrice maxPrice, st)

/-- Lines 36–208 of the handler, after validation: resolve coordinates
(400 if that returned `null`, which it never does), filter all stores by
`radius + 0.5` miles, then branch: empty and dev-mode → demo backfill and
redirect; empty otherwise → empty 200 envelope; else the 200 response. -/
noncomputable def searchCore (dev : Bool) (rand : ℕ → ℚ) (now : ℤ)
    (st : MemStorage) (zip : String) (r : ℤ) (egg : String) :
    PricesResponse × MemStorage :=
  match getCoordinatesForZipCode zip with
  | none => (.status400 coordsMsg, st)
  | some centerCoords =>
    let allStores := getStores st
    let storesInRadius := allStores.filter (fun s =>
      withinRadiusJS centerCoords.lat centerCoords.lng s.latitude
        s.longitude ((r : ℚ) + 1/2))
    if storesInRadius.length = 0 then
      if dev then backfillDemoStores rand now st zip centerCoords r egg
      else (.ok [] none none, st)
    else okResponse st zip egg storesInRadius

/-- Lines 13–34 of the handler: defaults (`radius || "5"`,
`eggType || "brown"`, lowercased), then the three validations in order,
each answering 400 with its own message. -/
noncomputable def pricesHandler (dev : Bool) (rand : ℕ → ℚ) (now : ℤ)
    (st : MemStorage) (q : PricesQuery) : PricesResponse × MemStorage :=
  let radiusStr := jsOr q.radius "5"
  let eggType := jsToLower (jsOr q.eggType "brown")
  match q.zipCode with
  | none => (.status400 zipMsg, st)
  | some zipCode =>
    if isZip5 zipCode = false then (.status400 zipMsg, st)
    else
      match js_parseInt radiusStr with
      | none => (.status400 radiusMsg, st)
      | some r =>
        if r < 1 ∨ 20 < r then (.status400 radiusMsg, st)
        else if ¬(eggType = "white" ∨ eggType = "brown") then
          (.status400 eggTypeMsg, st)
        else searchCore dev rand now st zipCode r eggType

/-- One request together with the client's follow-up of a 307 redirect (the
redirect target is the same route, so it runs the same handler on the
mutated repository; fresh random draws and clock for the second pass). -/
noncomputable def pricesSearchFollow (dev : Bool) (rand rand2 : ℕ → ℚ)
    (now now2 : ℤ) (st : MemStorage) (q : PricesQuery) :
    PricesResponse × MemStorage :=
  match pricesHandler dev rand now st q with
  | (.redirect307 q2, st2) => pricesHandler dev rand2 now2 st2 q2
  | out => out

theorem geocode_isSome (z : String) : getCoordinatesForZipCode z ≠ none := by
  unfold getCoordinatesForZipCode
  rcases lookupZip z with _ | c
  · dsimp only
    split
    · exact fun h => Option.noConfusion h
    · split
      · exact fun h => Option.noConfusion h
      · exact fun h => Option.noConfusion h
  · exact fun h => Option.noConfusion h

theorem backfill_fst (rand : ℕ → ℚ) (now : ℤ) (st : MemStorage)
    (zip : String) (c : Coordinates) (r : ℤ) (egg : String) :
    (backfillDemoStores rand now st zip c r egg).1 =
      .redirect307
        { zipCode := some zip, radius := some (toString r)
          eggType := some egg } := rfl

theorem okResponse_fst (st : MemStorage) (zip egg : String)
    (l : List Store) : ∃ views mn mx,
    (okResponse st zip egg l).1 = .ok views mn mx := ⟨_, _, _, rfl⟩

theorem searchCore_no_400 (dev : Bool) (rand : ℕ → ℚ) (now : ℤ)
    (st : MemStorage) (zip : String) (r : ℤ) (egg : String) (msg : String)
    (st2 : MemStorage) :
    searchCore dev rand now st zip r egg ≠ (.status400 msg, st2) := by
  intro h
  unfold searchCore at h
  rcases hg : getCoordinatesForZipCode zip with _ | c
  · exact geocode_isSome zip hg
  · rw [hg] at h
    dsimp only at h
    split at h
    · split at h
      · have h2 := congrArg Prod.fst h
        rw [backfill_fst] at h2
        cases h2
      · cases h
    · rcases okResponse_fst st zip egg _ with ⟨views, mn, mx, hfst⟩
      have h2 := congrArg Prod.fst h
      rw [hfst] at h2
      cases h2

/-- Claim C4: whenever the zip code is not exactly five digits (or missing),
or the radius string does not parse to an integer in [1, 20], or the
lowercased variant is not `"white"`/`"brown"`, the handler answers 400 —
never a 5xx fault — and the message names a field that indeed failed. -/
theorem c4_validation_errors (dev : Bool) (rand : ℕ → ℚ) (now : ℤ)
    (st : MemStorage) (q : PricesQuery)
    (hbad : zipValid q.zipCode = false ∨
      (∀ r : ℤ, js_parseInt (jsOr q.radius "5") = some r →
        (r < 1 ∨ 20 < r)) ∨
      ¬(jsToLower (jsOr q.eggType "brown") = "white" ∨
        jsToLower (jsOr q.eggType "brown") = "brown")) :
    ∃ msg, pricesHandler dev rand now st q = (.status400 msg, st) ∧
      ((msg = zipMsg ∧ zipValid q.zipCode = false) ∨
       (msg = radiusMsg ∧
         ∀ r : ℤ, js_parseInt (jsOr q.radius "5") = some r →
           (r < 1 ∨ 20 < r)) ∨
       (msg = eggTypeMsg ∧
         ¬(jsToLower (jsOr q.eggType "brown") = "white" ∨
           jsToLower (jsOr q.eggType "brown") = "brown"))) := by
  obtain ⟨zq, rq, egq⟩ := q
  dsimp only at hbad ⊢
  rcases zq with _ | zc
  · exact ⟨zipMsg, rfl, Or.inl ⟨rfl, rfl⟩⟩
  · rcases hz : isZip5 zc with _ | _
    · refine ⟨zipMsg, ?_, Or.inl ⟨rfl, by simp [zipValid, hz]⟩⟩
      unfold pricesHandler
      simp [hz]
    · have hzv : zipValid (some zc) = true := by simp [zipValid, hz]
      rcases hp : js_parseInt (jsOr rq "5") with _ | r
      · refine ⟨radiusMsg, ?_,
          Or.inr (Or.inl ⟨rfl, fun r0 h0 => Option.noConfusion h0⟩)⟩
        unfold pricesHandler
        simp [hz, hp]
      · by_cases hrange : r < 1 ∨ 20 < r
        · refine ⟨radiusMsg, ?_, Or.inr (Or.inl ⟨rfl,
            fun r0 h0 => (Option.some.inj h0) ▸ hrange⟩)⟩
          unfold pricesHandler
          simp [hz, hp, if_pos hrange]
        · have hegg : ¬(jsToLower (jsOr egq "brown") = "white" ∨
              jsToLower (jsOr egq "brown") = "brown") := by
            rcases hbad with hb | hb | hb
            · rw [hzv] at hb
              cases hb
            · exact absurd (hb r hp) hrange
            · exact hb
          refine ⟨eggTypeMsg, ?_, Or.inr (Or.inr ⟨rfl, hegg⟩)⟩
          unfold pricesHandler
          dsimp only
          rw [hz, if_neg (by decide : ¬(true = false)), hp]
          dsimp only
          rw [if_neg hrange, if_pos hegg]

/-- Claim C4 witness: the concrete request `zipCode=abc12&radius=5` answers
400 with the zip-code message. -/
theorem c4_validation_errors_witness :
    ∃ msg, pricesHandler false (fun _ => 0) 0 emptyStorage
        ⟨some "abc12", some "5", some "brown"⟩ =
        (.status400 msg, emptyStorage) ∧
      msg = zipMsg := by
  rcases c4_validation_errors false (fun _ => 0) 0 emptyStorage
      ⟨some "abc12", some "5", some "brown"⟩ (Or.inl (by decide)) with
    ⟨msg, hrun, hcase⟩
  refine ⟨msg, hrun, ?_⟩
  rcases hcase with ⟨h, _⟩ | ⟨h, hr⟩ | ⟨h, hegg⟩
  · exact h
  · exact absurd (hr 5 (by decide)) (by decide)
  · exact absurd (Or.inr (by decide)) hegg

/-- Claim C9: each default holds independently — omitting `radius` alone is
the same request as `radius=5` whatever `eggType` was supplied, and
omitting `eggType` alone is the same request as `eggType=brown` whatever
`radius` was supplied; a request omitting `radius` can never draw the
radius validation error, one omitting `eggType` can never draw the
egg-type validation error, and with both omitted the only validation
failure the handler can report is the zip-code one.  So omission of those
two parameters is never itself a validation error: only `zipCode` must be
supplied by the caller. -/
theorem c9_parameter_defaults (dev : Bool) (rand : ℕ → ℚ) (now : ℤ)
    (st : MemStorage) (z rs e : Option String) :
    pricesHandler dev rand now st ⟨z, none, e⟩ =
      pricesHandler dev rand now st ⟨z, some "5", e⟩ ∧
    pricesHandler dev rand now st ⟨z, rs, none⟩ =
      pricesHandler dev rand now st ⟨z, rs, some "brown"⟩ ∧
    (∀ msg st2, pricesHandler dev rand now st ⟨z, none, e⟩ =
        (.status400 msg, st2) → msg ≠ radiusMsg) ∧
    (∀ msg st2, pricesHandler dev rand now st ⟨z, rs, none⟩ =
        (.status400 msg, st2) → msg ≠ eggTypeMsg) ∧
    (∀ msg st2, pricesHandler dev rand now st ⟨z, none, none⟩ =
        (.status400 msg, st2) → msg = zipMsg) := by
  refine ⟨rfl, rfl, ?_, ?_, ?_⟩
  · intro msg st2 h
    unfold pricesHandler at h
    rcases z with _ | zc
    · dsimp only at h
      cases h
      decide
    · dsimp only at h
      rcases hz : isZip5 zc with _ | _
      · rw [hz] at h
        rw [if_pos rfl] at h
        cases h
        decide
      · rw [hz, if_neg (by decide : ¬(true = false))] at h
        have hpp : js_parseInt (jsOr (none : Option String) "5") = some 5 := by
          decide
        rw [hpp] at h
        dsimp only at h
        rw [if_neg (by decide : ¬((5 : ℤ) < 1 ∨ 20 < (5 : ℤ)))] at h
        by_cases hegg : jsToLower (jsOr e "brown") = "white" ∨
            jsToLower (jsOr e "brown") = "brown"
        · rw [if_neg (not_not_intro hegg)] at h
          exact absurd h (searchCore_no_400 dev rand now st zc 5 _ msg st2)
        · rw [if_pos hegg] at h
          cases h
          decide
  · intro msg st2 h
    unfold pricesHandler at h
    rcases z with _ | zc
    · dsimp only at h
      cases h
      decide
    · dsimp only at h
      rcases hz : isZip5 zc with _ | _
      · rw [hz] at h
        rw [if_pos rfl] at h
        cases h
        decide
      · rw [hz, if_neg (by decide : ¬(true = false))] at h
        rcases Option.eq_none_or_eq_some (js_parseInt (jsOr rs "5")) with
          hp | ⟨r, hp⟩
        · rw [hp] at h
          dsimp only at h
          cases h
          decide
        · rw [hp] at h
          dsimp only at h
          by_cases hr : r < 1 ∨ 20 < r
          · rw [if_pos hr] at h
            cases h
            decide
          · rw [if_neg hr] at h
            rw [if_neg (by decide :
              ¬¬(jsToLower (jsOr (none : Option String) "brown") = "white" ∨
                jsToLower (jsOr (none : Option String) "brown") = "brown"))] at h
            exact absurd h (searchCore_no_400 dev rand now st zc r _ msg st2)
  · intro msg st2 h
    unfold pricesHandler at h
    rcases z with _ | zc
    · dsimp only at h
      cases h
      rfl
    · dsimp only at h
      rcases hz : isZip5 zc with _ | _
      · rw [hz] at h
        rw [if_pos rfl] at h
        cases h
        rfl
      · rw [hz, if_neg (by decide : ¬(true = false))] at h
        have hpp : js_parseInt (jsOr (none : Option String) "5") = some 5 := by
          decide
        rw [hpp] at h
        dsimp only at h
        rw [if_neg (by decide : ¬((5 : ℤ) < 1 ∨ 20 < (5 : ℤ)))] at h
        rw [if_neg (by decide :
          ¬¬(jsToLower (jsOr (none : Option String) "brown") = "white" ∨
            jsToLower (jsOr (none : Option String) "brown") = "brown"))] at h
        exact absurd h (searchCore_no_400 dev rand now st zc 5 _ msg st2)

theorem foldl_min_spec (l : List ℚ) (a : ℚ) :
    l.foldl min a ≤ a ∧ (∀ q ∈ l, l.foldl min a ≤ q) ∧
      (l.foldl min a = a ∨ l.foldl min a ∈ l) := by
  induction l generalizing a with
  | nil =>
    exact ⟨le_refl a, fun q hq => absurd hq (List.not_mem_nil q), Or.inl rfl⟩
  | cons p rest ih =>
    simp only [List.foldl_cons]
    obtain ⟨ih1, ih2, ih3⟩ := ih (min a p)
    refine ⟨le_trans ih1 (min_le_left a p), ?_, ?_⟩
    · intro q hq
      rcases List.mem_cons.mp hq with rfl | hq2
      · exact le_trans ih1 (min_le_right a q)
      · exact ih2 q hq2
    · rcases ih3 with he | he
      · rcases le_total a p with hap | hap
        · exact Or.inl (he.trans (min_eq_left hap))
        · exact Or.inr
            (List.mem_cons.mpr (Or.inl (he.trans (min_eq_right hap))))
      · exact Or.inr (List.mem_cons_of_mem p he)

theorem foldl_max_spec (l : List ℚ) (a : ℚ) :
    a ≤ l.foldl max a ∧ (∀ q ∈ l, q ≤ l.foldl max a) ∧
      (l.foldl max a = a ∨ l.foldl max a ∈ l) := by
  induction l generalizing a with
  | nil =>
    exact ⟨le_refl a, fun q hq => absurd hq (List.not_mem_nil q), Or.inl rfl⟩
  | cons p rest ih =>
    simp only [List.foldl_cons]
    obtain ⟨ih1, ih2, ih3⟩ := ih (max a p)
    refine ⟨le_trans (le_max_left a p) ih1, ?_, ?_⟩
    · intro q hq
      rcases List.mem_cons.mp hq with rfl | hq2
      · exact le_trans (le_max_right a q) ih1
      · exact ih2 q hq2
    · rcases ih3 with he | he
      · rcases le_total p a with hap | hap
        · exact Or.inl (he.trans (max_eq_left hap))
        · exact Or.inr
            (List.mem_cons.mpr (Or.inl (he.trans (max_eq_right hap))))
      · exact Or.inr (List.mem_cons_of_mem p he)

theorem foldMin_spec (l : List ℚ) (m : ℚ) (h : foldMin l = some m) :
    m ∈ l ∧ ∀ q ∈ l, m ≤ q := by
  rcases l with _ | ⟨p, rest⟩
  · cases h
  · have hm : rest.foldl min p = m := Option.some.inj h
    obtain ⟨h1, h2, h3⟩ := foldl_min_spec rest p
    rw [hm] at h1 h2 h3
    constructor
    · rcases h3 with he | he
      · rw [he]
        exact List.mem_cons_self p rest
      · exact List.mem_cons_of_mem p he
    · intro q hq
      rcases List.mem_cons.mp hq with rfl | hq2
      · exact h1
      · exact h2 q hq2

theorem foldMax_spec (l : List ℚ) (m : ℚ) (h : foldMax l = some m) :
    m ∈ l ∧ ∀ q ∈ l, q ≤ m := by
  rcases l with _ | ⟨p, rest⟩
  · cases h
  · have hm : rest.foldl max p = m := Option.some.inj h
    obtain ⟨h1, h2, h3⟩ := foldl_max_spec rest p
    rw [hm] at h1 h2 h3
    constructor
    · rcases h3 with he | he
      · rw [he]
        exact List.mem_cons_self p rest
      · exact List.mem_cons_of_mem p he
    · intro q hq
      rcases List.mem_cons.mp hq with rfl | hq2
      · exact h1
      · exact h2 q hq2

/-- The envelope property of a search response: when some view has a present
`currentPrice`, both bounds are present, each is attained by a present
price, and they bound every present price; when no view has one (also the
empty result set), both bounds are `none` — never zero. -/
def envelopeOK (views : List StoreWithPrices) (mn mx : Option ℚ) : Prop :=
  ((∃ v ∈ views, (v.currentPrice).isSome) →
    ∃ a b, mn = some a ∧ mx = some b ∧
      (∃ v ∈ views, v.currentPrice = some a) ∧
      (∃ v ∈ views, v.currentPrice = some b) ∧
      ∀ v ∈ views, ∀ p, v.currentPrice = some p → a ≤ p ∧ p ≤ b) ∧
  ((∀ v ∈ views, v.currentPrice = none) → mn = none ∧ mx = none)

theorem foldMin_eq_none (l : List ℚ) : foldMin l = none ↔ l = [] := by
  cases l <;> simp [foldMin]

theorem foldMax_eq_none (l : List ℚ) : foldMax l = none ↔ l = [] := by
  cases l <;> simp [foldMax]

theorem withZip_currentPrice (s : StoreWithPrices) (z : String) :
    (withZip s z).currentPrice = s.currentPrice := rfl

theorem okResponse_envelope (st : MemStorage) (zip egg : String)
    (l : List Store) (views : List StoreWithPrices) (mn mx : Option ℚ)
    (st2 : MemStorage) (h : okResponse st zip egg l = (.ok views mn mx, st2)) :
    envelopeOK views mn mx := by
  unfold okResponse at h
  rcases h with ⟨⟩
  set swp := getStoresWithPrices st
    ((l.map (fun s => { s with zipCode := zip })).map (·.id)) egg with hswp
  have hmapeq : (swp.map (fun s => withZip s zip)).map (·.currentPrice) =
      swp.map (·.currentPrice) := by
    rw [List.map_map]
    rfl
  have hmem : ∀ p : ℚ,
      p ∈ (swp.map (·.currentPrice)).reduceOption ↔
        ∃ v ∈ swp.map (fun s => withZip s zip), v.currentPrice = some p := by
    intro p
    rw [List.reduceOption_mem_iff]
    constructor
    · intro hp
      rcases List.mem_map.mp hp with ⟨v, hv, he⟩
      exact ⟨withZip v zip, List.mem_map_of_mem _ hv, he⟩
    · intro ⟨v, hv, he⟩
      rcases List.mem_map.mp hv with ⟨w, hw, rfl⟩
      exact List.mem_map.mpr ⟨w, hw, he⟩
  constructor
  · intro ⟨v, hv, hp⟩
    rcases Option.isSome_iff_exists.mp hp with ⟨p, hpe⟩
    have hpm : p ∈ (swp.map (·.currentPrice)).reduceOption :=
      (hmem p).mpr ⟨v, hv, hpe⟩
    have hlen : 0 < ((swp.map (·.currentPrice)).reduceOption).length :=
      List.length_pos_of_mem hpm
    rcases hfm : foldMin ((swp.map (·.currentPrice)).reduceOption) with _ | a
    · rw [foldMin_eq_none] at hfm
      rw [hfm] at hlen
      cases hlen
    rcases hfx : foldMax ((swp.map (·.currentPrice)).reduceOption) with _ | b
    · rw [foldMax_eq_none] at hfx
      rw [hfx] at hlen
      cases hlen
    obtain ⟨hamem, hale⟩ := foldMin_spec _ a hfm
    obtain ⟨hbmem, hble⟩ := foldMax_spec _ b hfx
    refine ⟨a, b, by rw [if_pos hlen, hfm], by rw [if_pos hlen, hfx],
      (hmem a).mp hamem, (hmem b).mp hbmem, ?_⟩
    intro w hw q hq
    have hqm : q ∈ (swp.map (·.currentPrice)).reduceOption :=
      (hmem q).mpr ⟨w, hw, hq⟩
    exact ⟨hale q hqm, hble q hqm⟩
  · intro hnone
    have hempty : (swp.map (·.currentPrice)).reduceOption = [] := by
      rcases he : (swp.map (·.currentPrice)).reduceOption with _ | ⟨x, xs⟩
      · exact he
      · have : x ∈ (swp.map (·.currentPrice)).reduceOption := by
          rw [he]
          exact List.mem_cons_self x xs
        rcases (hmem x).mp this with ⟨v, hv, hveq⟩
        rw [hnone v hv] at hveq
        cases hveq
    rw [hempty]
    exact ⟨rfl, rfl⟩

/-- Claim C3: every 200 response of `GET /api/prices` satisfies the envelope
property: with at least one present `currentPrice`, `minPrice` and
`maxPrice` are present, attained by present prices, and bound every present
price; with none present (including the empty result set) both are `null`,
not zero. -/
theorem c3_envelope_aggregation (dev : Bool) (rand : ℕ → ℚ) (now : ℤ)
    (st : MemStorage) (q : PricesQuery) (views : List StoreWithPrices)
    (mn mx : Option ℚ) (st2 : MemStorage)
    (h : pricesHandler dev rand now st q = (.ok views mn mx, st2)) :
    envelopeOK views mn mx := by
  obtain ⟨zq, rq, egq⟩ := q
  unfold pricesHandler at h
  dsimp only at h
  rcases zq with _ | zc
  · cases h
  · dsimp only at h
    rcases hz : isZip5 zc with _ | _
    · rw [hz, if_pos rfl] at h
      cases h
    · rw [hz, if_neg (by decide : ¬(true = false))] at h
      rcases Option.eq_none_or_eq_some (js_parseInt (jsOr rq "5")) with
        hp | ⟨r, hp⟩
      · rw [hp] at h
        cases h
      · rw [hp] at h
        dsimp only at h
        by_cases hrange : r < 1 ∨ 20 < r
        · rw [if_pos hrange] at h
          cases h
        · rw [if_neg hrange] at h
          by_cases hegg : ¬(jsToLower (jsOr egq "brown") = "white" ∨
              jsToLower (jsOr egq "brown") = "brown")
          · rw [if_pos hegg] at h
            cases h
          · rw [if_neg hegg] at h
            unfold searchCore at h
            rcases hg : getCoordinatesForZipCode zc with _ | c
            · exact absurd hg (geocode_isSome zc)
            · rw [hg] at h
              dsimp only at h
              split at h
              · split at h
                · have h2 := congrArg Prod.fst h
                  rw [backfill_fst] at h2
                  cases h2
                · rcases h with ⟨⟩
                  refine ⟨fun he => ?_, fun _ => ⟨rfl, rfl⟩⟩
                  rcases he with ⟨v, hv, _⟩
                  exact absurd hv (List.not_mem_nil v)
              · exact okResponse_envelope st zc
                  (jsToLower (jsOr egq "brown")) _ views mn mx st2 h

/-- Claim C3 witness: the concrete search `zipCode=94110&radius=5` against
the empty repository (dev mode off) answers the empty envelope, which the
theorem then shows satisfies the aggregation property. -/
theorem c3_envelope_aggregation_witness : envelopeOK [] none none :=
  c3_envelope_aggregation false (fun _ => 0) 0 emptyStorage
    ⟨some "94110", some "5", some "brown"⟩ [] none none emptyStorage rfl

/-! ## Geometry bounds for the demo-store offsets -/

theorem arctan_le_self (t : ℝ) (ht : 0 ≤ t) : Real.arctan t ≤ t := by
  rcases eq_or_lt_of_le ht with he | hlt
  · rw [← he, Real.arctan_zero]
  · have h1 : 0 < Real.arctan t := by
      have h2 := Real.arctan_strictMono hlt
      rwa [Real.arctan_zero] at h2
    have h2 := Real.lt_tan h1 (Real.arctan_lt_pi_div_two t)
    rw [Real.tan_arctan] at h2
    exact le_of_lt h2

theorem self_le_arcsin (x : ℝ) (h0 : 0 ≤ x) (h1 : x ≤ 1) :
    x ≤ Real.arcsin x := by
  rcases eq_or_lt_of_le (Real.arcsin_nonneg.mpr h0) with he | hlt
  · have hx : x = 0 := by
      have hs := Real.sin_arcsin (by linarith) h1
      rw [← he, Real.sin_zero] at hs
      exact hs.symm
    rw [hx]
    simp [Real.arcsin_zero]
  · have hs := Real.sin_lt hlt
    rw [Real.sin_arcsin (by linarith) h1] at hs
    exact le_of_lt hs

theorem atan2_pos_x (y x : ℝ) (hx : 0 < x) :
    atan2 y x = Real.arctan (y / x) := by
  unfold atan2
  rw [if_pos hx]

set_option maxHeartbeats 1000000 in
theorem calculateDistance_le_bound (lat1 lng1 lat2 lng2 : ℝ) (A B : ℚ)
    (hA0 : 0 ≤ A) (hB0 : 0 ≤ B) (hsmall : A + B ≤ 1/10)
    (hA : |lat2 - lat1| ≤ (A : ℝ)) (hB : |lng2 - lng1| ≤ (B : ℝ)) :
    calculateDistance lat1 lng1 lat2 lng2 ≤ 70 * ((A : ℝ) + (B : ℝ)) := by
  have hA0r : (0 : ℝ) ≤ (A : ℚ) := by exact_mod_cast hA0
  have hB0r : (0 : ℝ) ≤ (B : ℚ) := by exact_mod_cast hB0
  have hsmallr : (A : ℝ) + (B : ℝ) ≤ 1/10 := by
    have h2 : ((A + B : ℚ) : ℝ) ≤ ((1/10 : ℚ) : ℝ) := by exact_mod_cast hsmall
    push_cast at h2
    linarith
  have hpi := Real.pi_lt_3141593
  have hpi2 := Real.pi_gt_3141592
  have hpi0 := Real.pi_pos
  unfold calculateDistance toRad
  dsimp only
  set u : ℝ := ((A : ℝ) + (B : ℝ)) * Real.pi / 360 with hu
  have hu0 : 0 ≤ u := by positivity
  have huB : u ≤ 0.000875 := by
    rw [hu]
    rw [div_le_iff (by norm_num : (0:ℝ) < 360)]
    nlinarith
  have hs1 : Real.sin ((lat2 - lat1) * Real.pi / 180 / 2) *
      Real.sin ((lat2 - lat1) * Real.pi / 180 / 2) ≤
      ((A : ℝ) * Real.pi / 360) ^ 2 := by
    have he : (lat2 - lat1) * Real.pi / 180 / 2 =
        (lat2 - lat1) * (Real.pi / 360) := by ring
    rw [← pow_two, he]
    calc Real.sin ((lat2 - lat1) * (Real.pi / 360)) ^ 2
        ≤ ((lat2 - lat1) * (Real.pi / 360)) ^ 2 := Real.sin_sq_le_sq
      _ = (|lat2 - lat1| * (Real.pi / 360)) ^ 2 := by
          rw [mul_pow, mul_pow, sq_abs]
      _ ≤ ((A : ℝ) * (Real.pi / 360)) ^ 2 := by
          have hmul : |lat2 - lat1| * (Real.pi / 360) ≤
              (A : ℝ) * (Real.pi / 360) := by
            apply mul_le_mul_of_nonneg_right hA
            positivity
          exact pow_le_pow_left (by positivity) hmul 2
      _ = ((A : ℝ) * Real.pi / 360) ^ 2 := by ring_nf
  have hs2 : Real.sin ((lng2 - lng1) * Real.pi / 180 / 2) *
      Real.sin ((lng2 - lng1) * Real.pi / 180 / 2) ≤
      ((B : ℝ) * Real.pi / 360) ^ 2 := by
    have he : (lng2 - lng1) * Real.pi / 180 / 2 =
        (lng2 - lng1) * (Real.pi / 360) := by ring
    rw [← pow_two, he]
    calc Real.sin ((lng2 - lng1) * (Real.pi / 360)) ^ 2
        ≤ ((lng2 - lng1) * (Real.pi / 360)) ^ 2 := Real.sin_sq_le_sq
      _ = (|lng2 - lng1| * (Real.pi / 360)) ^ 2 := by
          rw [mul_pow, mul_pow, sq_abs]
      _ ≤ ((B : ℝ) * (Real.pi / 360)) ^ 2 := by
          have hmul : |lng2 - lng1| * (Real.pi / 360) ≤
              (B : ℝ) * (Real.pi / 360) := by
            apply mul_le_mul_of_nonneg_right hB
            positivity
          exact pow_le_pow_left (by positivity) hmul 2
      _ = ((B : ℝ) * Real.pi / 360) ^ 2 := by ring_nf
  have hsin2nn : 0 ≤ Real.sin ((lng2 - lng1) * Real.pi / 180 / 2) *
      Real.sin ((lng2 - lng1) * Real.pi / 180 / 2) := mul_self_nonneg _
  have hcos : Real.cos (lat1 * Real.pi / 180) *
      Real.cos (lat2 * Real.pi / 180) ≤ 1 := by
    calc Real.cos (lat1 * Real.pi / 180) * Real.cos (lat2 * Real.pi / 180)
        ≤ |Real.cos (lat1 * Real.pi / 180) * Real.cos (lat2 * Real.pi / 180)| :=
          le_abs_self _
      _ = |Real.cos (lat1 * Real.pi / 180)| * |Real.cos (lat2 * Real.pi / 180)| :=
          abs_mul _ _
      _ ≤ 1 * 1 := by
          apply mul_le_mul (Real.abs_cos_le_one _) (Real.abs_cos_le_one _)
            (abs_nonneg _) (by norm_num)
      _ = 1 := one_mul 1
  set aa : ℝ := Real.sin ((lat2 - lat1) * Real.pi / 180 / 2) *
    Real.sin ((lat2 - lat1) * Real.pi / 180 / 2) +
    Real.cos (lat1 * Real.pi / 180) * Real.cos (lat2 * Real.pi / 180) *
    (Real.sin ((lng2 - lng1) * Real.pi / 180 / 2) *
      Real.sin ((lng2 - lng1) * Real.pi / 180 / 2)) with haa
  have haau : aa ≤ u ^ 2 := by
    have hprod : Real.cos (lat1 * Real.pi / 180) *
        Real.cos (lat2 * Real.pi / 180) *
        (Real.sin ((lng2 - lng1) * Real.pi / 180 / 2) *
          Real.sin ((lng2 - lng1) * Real.pi / 180 / 2)) ≤
        Real.sin ((lng2 - lng1) * Real.pi / 180 / 2) *
          Real.sin ((lng2 - lng1) * Real.pi / 180 / 2) :=
      mul_le_of_le_one_left hsin2nn hcos
    have hsum : aa ≤ ((A : ℝ) * Real.pi / 360) ^ 2 +
        ((B : ℝ) * Real.pi / 360) ^ 2 := by
      rw [haa]
      have := le_trans hprod hs2
      linarith
    calc aa ≤ ((A : ℝ) * Real.pi / 360) ^ 2 +
        ((B : ℝ) * Real.pi / 360) ^ 2 := hsum
      _ ≤ u ^ 2 := by
          rw [hu]
          have hABpi : (0 : ℝ) ≤ Real.pi / 360 := by positivity
          nlinarith [mul_nonneg hA0r hB0r, sq_nonneg Real.pi]
  rcases le_or_lt aa 0 with hneg | hpos
  · rw [Real.sqrt_eq_zero_of_nonpos hneg]
    have hx : 0 < Real.sqrt (1 - aa) := by
      rw [Real.sqrt_pos]
      linarith
    rw [atan2_pos_x _ _ hx, zero_div, Real.arctan_zero]
    have : (0:ℝ) ≤ 70 * ((A : ℝ) + (B : ℝ)) := by positivity
    linarith
  · have hsa : Real.sqrt aa ≤ u := by
      rw [Real.sqrt_le_iff]
      exact ⟨hu0, haau⟩
    have hu2 : u ^ 2 ≤ 0.000000765625 := by
      calc u ^ 2 ≤ 0.000875 ^ 2 := pow_le_pow_left hu0 huB 2
        _ = 0.000000765625 := by norm_num
    have haaub : aa ≤ 765625e-12 := le_trans haau hu2
    have h1aa : (0.9801 : ℝ) ≤ 1 - aa := by linarith [haaub]
    have hsx : (0.99 : ℝ) ≤ Real.sqrt (1 - aa) := by
      rw [Real.le_sqrt (by norm_num) (by linarith)]
      norm_num
      linarith
    have hx : 0 < Real.sqrt (1 - aa) := lt_of_lt_of_le (by norm_num) hsx
    rw [atan2_pos_x _ _ hx]
    have ht0 : 0 ≤ Real.sqrt aa / Real.sqrt (1 - aa) :=
      div_nonneg (Real.sqrt_nonneg _) (Real.sqrt_nonneg _)
    have htu : Real.sqrt aa / Real.sqrt (1 - aa) ≤ u / 0.99 :=
      div_le_div hu0 hsa (by norm_num) hsx
    have harc := le_trans (arctan_le_self _ ht0) htu
    have hfinal : (3958.8 : ℝ) *
        (2 * Real.arctan (Real.sqrt aa / Real.sqrt (1 - aa))) ≤
        7917.6 * (u / 0.99) := by nlinarith
    calc (3958.8 : ℝ) *
        (2 * Real.arctan (Real.sqrt aa / Real.sqrt (1 - aa))) ≤
        7917.6 * (u / 0.99) := hfinal
      _ = 7917.6 * (u * (100/99)) := by
          rw [div_eq_mul_inv, show ((0.99:ℝ))⁻¹ = 100/99 by norm_num]
      _ ≤ 70 * ((A : ℝ) + (B : ℝ)) := by
          have hABnn : (0:ℝ) ≤ (A:ℝ) + (B:ℝ) := add_nonneg hA0r hB0r
          have hmul : ((A:ℝ) + (B:ℝ)) * Real.pi ≤
              ((A:ℝ) + (B:ℝ)) * 3.141593 :=
            mul_le_mul_of_nonneg_left (le_of_lt hpi) hABnn
          have hu4 : 360 * u ≤ ((A:ℝ) + (B:ℝ)) * 3.141593 := by
            rw [hu, show 360 * (((A:ℝ) + (B:ℝ)) * Real.pi / 360) =
              ((A:ℝ) + (B:ℝ)) * Real.pi by ring]
            exact hmul
          linarith [hu4, hABnn]

theorem digit_not_ws (ch : Char) (h : ch.isDigit = true) :
    ch.isWhitespace = false := by
  simp only [Char.isDigit, Bool.and_eq_true, decide_eq_true_eq] at h
  simp only [Char.isWhitespace, Bool.or_eq_false_iff, decide_eq_false_iff_not]
  refine ⟨⟨⟨?_, ?_⟩, ?_⟩, ?_⟩ <;> rintro rfl <;> revert h <;> decide

theorem digit_ne_dash (ch : Char) (h : ch.isDigit = true) :
    ch ≠ '-' ∧ ch ≠ '+' := by
  constructor <;> rintro rfl <;> revert h <;> decide

theorem parseInt_digits (cs : List Char) (hne : cs ≠ [])
    (hd : ∀ ch ∈ cs, ch.isDigit = true) :
    ∃ n : ℕ, js_parseInt (String.mk cs) = some (n : ℤ) := by
  rcases cs with _ | ⟨c0, rest⟩
  · exact absurd rfl hne
  have h0 := hd c0 (List.mem_cons_self c0 rest)
  unfold js_parseInt
  rw [show (String.mk (c0 :: rest)).toList = c0 :: rest from rfl]
  rw [List.dropWhile_cons, digit_not_ws c0 h0]
  simp only [Bool.false_eq_true, if_false]
  rw [if_neg (digit_ne_dash c0 h0).1, if_neg (digit_ne_dash c0 h0).2]
  unfold digitsVal
  rw [List.takeWhile_cons, h0]
  simp only [if_true]
  exact ⟨_, rfl⟩

theorem zip5_chars (z : String) (h : isZip5 z = true) :
    ∃ c0 c1 c2 c3 c4 : Char, z.toList = [c0, c1, c2, c3, c4] ∧
      ∀ ch ∈ z.toList, ch.isDigit = true := by
  unfold isZip5 at h
  rw [Bool.and_eq_true] at h
  have hlen : z.toList.length = 5 := by
    have := h.1
    rwa [Nat.beq_eq_true_eq] at this
  have hdig : ∀ ch ∈ z.toList, ch.isDigit = true := by
    intro ch hch
    exact List.all_eq_true.mp h.2 ch hch
  obtain ⟨l, hl0⟩ : ∃ l, z.toList = l := ⟨_, rfl⟩
  rw [hl0] at hlen
  rw [hl0]
  have hdig2 : ∀ ch ∈ l, ch.isDigit = true := by
    intro ch hch
    exact hdig ch (hl0 ▸ hch)
  rcases l with _ | ⟨c0, _ | ⟨c1, _ | ⟨c2, _ | ⟨c3, _ | ⟨c4, _ | ⟨c5, t⟩⟩⟩⟩⟩⟩ <;>
    first
      | (exact ⟨c0, c1, c2, c3, c4, rfl, fun ch hch => hdig2 ch hch⟩)
      | (exact absurd hlen (by simp))

theorem zip5_charAt4 (z : String) (c0 c1 c2 c3 c4 : Char)
    (hl : z.toList = [c0, c1, c2, c3, c4]) :
    jsCharAt z 4 = String.mk [c4] := by
  unfold jsCharAt
  rw [hl]
  rfl

theorem zip5_sub35 (z : String) (c0 c1 c2 c3 c4 : Char)
    (hl : z.toList = [c0, c1, c2, c3, c4]) :
    jsSubstring z 3 5 = String.mk [c3, c4] := by
  unfold jsSubstring
  rw [hl]
  rfl

theorem geocode_zip5 (z : String) (h : isZip5 z = true) :
    ∃ a b : ℚ, getCoordinatesForZipCode z = some ⟨some a, some b⟩ := by
  obtain ⟨c0, c1, c2, c3, c4, hl, hdig⟩ := zip5_chars z h
  have h4 : ∃ n : ℕ, js_parseInt (jsCharAt z 4) = some (n : ℤ) := by
    rw [zip5_charAt4 z c0 c1 c2 c3 c4 hl]
    refine parseInt_digits [c4] (by simp) ?_
    intro ch hch
    rcases List.mem_singleton.mp hch with rfl
    exact hdig ch (by rw [hl]; simp)
  have h35 : ∃ n : ℕ, js_parseInt (jsSubstring z 3 5) = some (n : ℤ) := by
    rw [zip5_sub35 z c0 c1 c2 c3 c4 hl]
    refine parseInt_digits [c3, c4] (by simp) ?_
    intro ch hch
    rcases List.mem_cons.mp hch with rfl | hch2
    · exact hdig ch (by rw [hl]; simp)
    · rcases List.mem_singleton.mp hch2 with rfl
      exact hdig ch (by rw [hl]; simp)
  obtain ⟨d4, hd4⟩ := h4
  obtain ⟨d35, hd35⟩ := h35
  unfold getCoordinatesForZipCode
  rcases lookupZip z with _ | c
  · dsimp only
    split
    · rw [hd4]
      exact ⟨_, _, rfl⟩
    · split
      · rw [hd35]
        exact ⟨_, _, rfl⟩
      · rw [hd35]
        exact ⟨_, _, rfl⟩
  · exact ⟨c.1, c.2, rfl⟩

/-- The stored record of the first demo store. -/
def demoStore1 (zip : String) (c : Coordinates) (id : ℕ) : Store :=
  { id := id, name := "Local Grocery", address := "123 Main Street"
    city := getPlaceName zip, state := getStateFromZip zip, zipCode := zip
    latitude := c.lat, longitude := c.lng
    phone := some "(555) 123-4567"
    website := some "https://www.localgrocery.com"
    hours := some "8:00 AM - 9:00 PM" }

/-- The stored record of the second demo store. -/
def demoStore2 (zip : String) (c : Coordinates) (id : ℕ) : Store :=
  { id := id, name := "Farmers Market", address := "456 Oak Avenue"
    city := getPlaceName zip, state := getStateFromZip zip, zipCode := zip
    latitude := jadd c.lat (some (1/100))
    longitude := jsub c.lng (some (1/100))
    phone := some "(555) 987-6543"
    website := some "https://www.farmersmarket.com"
    hours := some "7:00 AM - 6:00 PM" }

/-- The stored record of the third demo store. -/
def demoStore3 (zip : String) (c : Coordinates) (id : ℕ) : Store :=
  { id := id, name := "Organic Essentials", address := "789 Maple Drive"
    city := getPlaceName zip, state := getStateFromZip zip, zipCode := zip
    latitude := jsub c.lat (some (2/100))
    longitude := jadd c.lng (some (15/1000))
    phone := some "(555) 345-6789"
    website := some "https://www.organicstore.com"
    hours := some "9:00 AM - 8:00 PM" }

theorem createStore_getStores {st : MemStorage} (h : storesWF st)
    (ins : InsertStore) :
    getStores (createStore st ins).2 = getStores st ++ [(createStore st ins).1] := by
  unfold getStores
  rw [createStore_storesData h, mapValues_append]
  rfl

theorem createPrice_getPrices {st : MemStorage} (h : pricesWF st)
    (now : ℤ) (ins : InsertPrice) :
    getPrices (createPrice now st ins).2 =
      getPrices st ++ [(createPrice now st ins).1] := by
  unfold getPrices
  rw [createPrice_pricesData h, mapValues_append]
  rfl

theorem latest_isSome_of_mem (st : MemStorage) (p : Price)
    (hp : p ∈ getPrices st) (sid : ℕ) (e : String)
    (hsid : p.storeId = sid) (he : p.eggType = e) :
    (getLatestPriceByStore st sid e).isSome = true := by
  unfold getLatestPriceByStore
  have hmemf : p ∈ (getPrices st).filter
      (fun q => q.storeId == sid && q.eggType == e) := by
    rw [List.mem_filter]
    refine ⟨hp, ?_⟩
    rw [hsid, he]
    simp
  have hmem2 : p ∈ ((getPrices st).filter
      (fun q => q.storeId == sid && q.eggType == e)).mergeSort newestFirst :=
    List.mem_mergeSort.mpr hmemf
  rcases hms : ((getPrices st).filter
      (fun q => q.storeId == sid && q.eggType == e)).mergeSort newestFirst with
    _ | ⟨x, xs⟩
  · rw [hms] at hmem2
    cases hmem2
  · rw [hms]
    rfl

theorem keys_lt_storeCounter {st : MemStorage} (h : storesWF st) :
    ∀ k ∈ mapKeys st.storesData, k < st.storeCurrentId := by
  intro k hk
  rcases List.mem_map.mp hk with ⟨kv, hkv, he⟩
  exact he ▸ (h.1 kv hkv).2

set_option maxHeartbeats 2000000 in
theorem backfill_state (rand : ℕ → ℚ) (now : ℤ) (st : MemStorage)
    (zip : String) (c : Coordinates) (r : ℤ) (egg : String)
    (hwf : storageWF st) :
    storageWF (backfillDemoStores rand now st zip c r egg).2 ∧
    getStores (backfillDemoStores rand now st zip c r egg).2 =
      getStores st ++ [demoStore1 zip c st.storeCurrentId,
        demoStore2 zip c (st.storeCurrentId + 1),
        demoStore3 zip c (st.storeCurrentId + 2)] ∧
    getStore (backfillDemoStores rand now st zip c r egg).2 st.storeCurrentId =
      some (demoStore1 zip c st.storeCurrentId) ∧
    getStore (backfillDemoStores rand now st zip c r egg).2 (st.storeCurrentId + 1) =
      some (demoStore2 zip c (st.storeCurrentId + 1)) ∧
    getStore (backfillDemoStores rand now st zip c r egg).2 (st.storeCurrentId + 2) =
      some (demoStore3 zip c (st.storeCurrentId + 2)) ∧
    ∀ e : String, e = "brown" ∨ e = "white" →
      ∀ i : ℕ, i = st.storeCurrentId ∨ i = st.storeCurrentId + 1 ∨
          i = st.storeCurrentId + 2 →
        (getLatestPriceByStore (backfillDemoStores rand now st zip c r egg).2 i e).isSome = true := by
  obtain ⟨hS, hP⟩ := hwf
  have hB : (backfillDemoStores rand now st zip c r egg).2 = (createPrice now (createPrice now (createPrice now (createPrice now (createPrice now (createPrice now (createStore (createStore (createStore st (demoIns1 zip c)).2 (demoIns2 zip c)).2 (demoIns3 zip c)).2 (demoPriceIns st.storeCurrentId "brown" (429/100) (rand 0) now)).2 (demoPriceIns (st.storeCurrentId + 1) "brown" (459/100) (rand 1) now)).2 (demoPriceIns (st.storeCurrentId + 2) "brown" (489/100) (rand 2) now)).2 (demoPriceIns st.storeCurrentId "white" (399/100) (rand 3) now)).2 (demoPriceIns (st.storeCurrentId + 1) "white" (419/100) (rand 4) now)).2 (demoPriceIns (st.storeCurrentId + 2) "white" (449/100) (rand 5) now)).2 := rfl
  have hS1 : storesWF (createStore st (demoIns1 zip c)).2 := createStore_storesWF hS _
  have hS2 : storesWF (createStore (createStore st (demoIns1 zip c)).2 (demoIns2 zip c)).2 := createStore_storesWF hS1 _
  have hS3 : storesWF (createStore (createStore (createStore st (demoIns1 zip c)).2 (demoIns2 zip c)).2 (demoIns3 zip c)).2 := createStore_storesWF hS2 _
  have hP3 : pricesWF (createStore (createStore (createStore st (demoIns1 zip c)).2 (demoIns2 zip c)).2 (demoIns3 zip c)).2 := hP
  have hP4 : pricesWF (createPrice now (createStore (createStore (createStore st (demoIns1 zip c)).2 (demoIns2 zip c)).2 (demoIns3 zip c)).2 (demoPriceIns st.storeCurrentId "brown" (429/100) (rand 0) now)).2 := createPrice_pricesWF hP3 now _
  have hP5 : pricesWF (createPrice now (createPrice now (createStore (createStore (createStore st (demoIns1 zip c)).2 (demoIns2 zip c)).2 (demoIns3 zip c)).2 (demoPriceIns st.storeCurrentId "brown" (429/100) (rand 0) now)).2 (demoPriceIns (st.storeCurrentId + 1) "brown" (459/100) (rand 1) now)).2 := createPrice_pricesWF hP4 now _
  have hP6 : pricesWF (createPrice now (createPrice now (createPrice now (createStore (createStore (createStore st (demoIns1 zip c)).2 (demoIns2 zip c)).2 (demoIns3 zip c)).2 (demoPriceIns st.storeCurrentId "brown" (429/100) (rand 0) now)).2 (demoPriceIns (st.storeCurrentId + 1) "brown" (459/100) (rand 1) now)).2 (demoPriceIns (st.storeCurrentId + 2) "brown" (489/100) (rand 2) now)).2 := createPrice_pricesWF hP5 now _
  have hP7 : pricesWF (createPrice now (createPrice now (createPrice now (createPrice now (createStore (createStore (createStore st (demoIns1 zip c)).2 (demoIns2 zip c)).2 (demoIns3 zip c)).2 (demoPriceIns st.storeCurrentId "brown" (429/100) (rand 0) now)).2 (demoPriceIns (st.storeCurrentId + 1) "brown" (459/100) (rand 1) now)).2 (demoPriceIns (st.storeCurrentId + 2) "brown" (489/100) (rand 2) now)).2 (demoPriceIns st.storeCurrentId "white" (399/100) (rand 3) now)).2 := createPrice_pricesWF hP6 now _
  have hP8 : pricesWF (createPrice now (createPrice now (createPrice now (createPrice now (createPrice now (createStore (createStore (createStore st (demoIns1 zip c)).2 (demoIns2 zip c)).2 (demoIns3 zip c)).2 (demoPriceIns st.storeCurrentId "brown" (429/100) (rand 0) now)).2 (demoPriceIns (st.storeCurrentId + 1) "brown" (459/100) (rand 1) now)).2 (demoPriceIns (st.storeCurrentId + 2) "brown" (489/100) (rand 2) now)).2 (demoPriceIns st.storeCurrentId "white" (399/100) (rand 3) now)).2 (demoPriceIns (st.storeCurrentId + 1) "white" (419/100) (rand 4) now)).2 := createPrice_pricesWF hP7 now _
  have hP9 : pricesWF (createPrice now (createPrice now (createPrice now (createPrice now (createPrice now (createPrice now (createStore (createStore (createStore st (demoIns1 zip c)).2 (demoIns2 zip c)).2 (demoIns3 zip c)).2 (demoPriceIns st.storeCurrentId "brown" (429/100) (rand 0) now)).2 (demoPriceIns (st.storeCurrentId + 1) "brown" (459/100) (rand 1) now)).2 (demoPriceIns (st.storeCurrentId + 2) "brown" (489/100) (rand 2) now)).2 (demoPriceIns st.storeCurrentId "white" (399/100) (rand 3) now)).2 (demoPriceIns (st.storeCurrentId + 1) "white" (419/100) (rand 4) now)).2 (demoPriceIns (st.storeCurrentId + 2) "white" (449/100) (rand 5) now)).2 := createPrice_pricesWF hP8 now _
  have hgs : getStores (createPrice now (createPrice now (createPrice now (createPrice now (createPrice now (createPrice now (createStore (createStore (createStore st (demoIns1 zip c)).2 (demoIns2 zip c)).2 (demoIns3 zip c)).2 (demoPriceIns st.storeCurrentId "brown" (429/100) (rand 0) now)).2 (demoPriceIns (st.storeCurrentId + 1) "brown" (459/100) (rand 1) now)).2 (demoPriceIns (st.storeCurrentId + 2) "brown" (489/100) (rand 2) now)).2 (demoPriceIns st.storeCurrentId "white" (399/100) (rand 3) now)).2 (demoPriceIns (st.storeCurrentId + 1) "white" (419/100) (rand 4) now)).2 (demoPriceIns (st.storeCurrentId + 2) "white" (449/100) (rand 5) now)).2 = getStores st ++
      [demoStore1 zip c st.storeCurrentId] ++
      [demoStore2 zip c (st.storeCurrentId + 1)] ++
      [demoStore3 zip c (st.storeCurrentId + 2)] := by
    have e3 : getStores (createPrice now (createPrice now (createPrice now (createPrice now (createPrice now (createPrice now (createStore (createStore (createStore st (demoIns1 zip c)).2 (demoIns2 zip c)).2 (demoIns3 zip c)).2 (demoPriceIns st.storeCurrentId "brown" (429/100) (rand 0) now)).2 (demoPriceIns (st.storeCurrentId + 1) "brown" (459/100) (rand 1) now)).2 (demoPriceIns (st.storeCurrentId + 2) "brown" (489/100) (rand 2) now)).2 (demoPriceIns st.storeCurrentId "white" (399/100) (rand 3) now)).2 (demoPriceIns (st.storeCurrentId + 1) "white" (419/100) (rand 4) now)).2 (demoPriceIns (st.storeCurrentId + 2) "white" (449/100) (rand 5) now)).2 = getStores (createStore (createStore (createStore st (demoIns1 zip c)).2 (demoIns2 zip c)).2 (demoIns3 zip c)).2 := rfl
    rw [e3, createStore_getStores hS2, createStore_getStores hS1,
      createStore_getStores hS]
    rfl
  have hsd : (createPrice now (createPrice now (createPrice now (createPrice now (createPrice now (createPrice now (createStore (createStore (createStore st (demoIns1 zip c)).2 (demoIns2 zip c)).2 (demoIns3 zip c)).2 (demoPriceIns st.storeCurrentId "brown" (429/100) (rand 0) now)).2 (demoPriceIns (st.storeCurrentId + 1) "brown" (459/100) (rand 1) now)).2 (demoPriceIns (st.storeCurrentId + 2) "brown" (489/100) (rand 2) now)).2 (demoPriceIns st.storeCurrentId "white" (399/100) (rand 3) now)).2 (demoPriceIns (st.storeCurrentId + 1) "white" (419/100) (rand 4) now)).2 (demoPriceIns (st.storeCurrentId + 2) "white" (449/100) (rand 5) now)).2.storesData = ((st.storesData ++
      [(st.storeCurrentId, demoStore1 zip c st.storeCurrentId)]) ++
      [(st.storeCurrentId + 1, demoStore2 zip c (st.storeCurrentId + 1))]) ++
      [(st.storeCurrentId + 2, demoStore3 zip c (st.storeCurrentId + 2))] := by
    have e3 : (createPrice now (createPrice now (createPrice now (createPrice now (createPrice now (createPrice now (createStore (createStore (createStore st (demoIns1 zip c)).2 (demoIns2 zip c)).2 (demoIns3 zip c)).2 (demoPriceIns st.storeCurrentId "brown" (429/100) (rand 0) now)).2 (demoPriceIns (st.storeCurrentId + 1) "brown" (459/100) (rand 1) now)).2 (demoPriceIns (st.storeCurrentId + 2) "brown" (489/100) (rand 2) now)).2 (demoPriceIns st.storeCurrentId "white" (399/100) (rand 3) now)).2 (demoPriceIns (st.storeCurrentId + 1) "white" (419/100) (rand 4) now)).2 (demoPriceIns (st.storeCurrentId + 2) "white" (449/100) (rand 5) now)).2.storesData = (createStore (createStore (createStore st (demoIns1 zip c)).2 (demoIns2 zip c)).2 (demoIns3 zip c)).2.storesData := rfl
    rw [e3, createStore_storesData hS2, createStore_storesData hS1,
      createStore_storesData hS]
    rfl
  have hkeys := keys_lt_storeCounter hS
  have hg1 : getStore (createPrice now (createPrice now (createPrice now (createPrice now (createPrice now (createPrice now (createStore (createStore (createStore st (demoIns1 zip c)).2 (demoIns2 zip c)).2 (demoIns3 zip c)).2 (demoPriceIns st.storeCurrentId "brown" (429/100) (rand 0) now)).2 (demoPriceIns (st.storeCurrentId + 1) "brown" (459/100) (rand 1) now)).2 (demoPriceIns (st.storeCurrentId + 2) "brown" (489/100) (rand 2) now)).2 (demoPriceIns st.storeCurrentId "white" (399/100) (rand 3) now)).2 (demoPriceIns (st.storeCurrentId + 1) "white" (419/100) (rand 4) now)).2 (demoPriceIns (st.storeCurrentId + 2) "white" (449/100) (rand 5) now)).2 st.storeCurrentId =
      some (demoStore1 zip c st.storeCurrentId) := by
    unfold getStore
    rw [hsd]
    rw [mapGet_append_of_ne _ _ _ _ (by omega),
      mapGet_append_of_ne _ _ _ _ (by omega)]
    exact mapGet_append_fresh _ _ _ (storesWF_fresh hS)
  have hg2 : getStore (createPrice now (createPrice now (createPrice now (createPrice now (createPrice now (createPrice now (createStore (createStore (createStore st (demoIns1 zip c)).2 (demoIns2 zip c)).2 (demoIns3 zip c)).2 (demoPriceIns st.storeCurrentId "brown" (429/100) (rand 0) now)).2 (demoPriceIns (st.storeCurrentId + 1) "brown" (459/100) (rand 1) now)).2 (demoPriceIns (st.storeCurrentId + 2) "brown" (489/100) (rand 2) now)).2 (demoPriceIns st.storeCurrentId "white" (399/100) (rand 3) now)).2 (demoPriceIns (st.storeCurrentId + 1) "white" (419/100) (rand 4) now)).2 (demoPriceIns (st.storeCurrentId + 2) "white" (449/100) (rand 5) now)).2 (st.storeCurrentId + 1) =
      some (demoStore2 zip c (st.storeCurrentId + 1)) := by
    unfold getStore
    rw [hsd]
    rw [mapGet_append_of_ne _ _ _ _ (by omega)]
    refine mapGet_append_fresh _ _ _ ?_
    rw [mapKeys_append]
    intro hmem
    rcases List.mem_append.mp hmem with hmem | hmem
    · exact absurd (hkeys _ hmem) (by omega)
    · simp only [mapKeys, List.map_cons, List.map_nil,
        List.mem_singleton] at hmem
      omega
  have hg3 : getStore (createPrice now (createPrice now (createPrice now (createPrice now (createPrice now (createPrice now (createStore (createStore (createStore st (demoIns1 zip c)).2 (demoIns2 zip c)).2 (demoIns3 zip c)).2 (demoPriceIns st.storeCurrentId "brown" (429/100) (rand 0) now)).2 (demoPriceIns (st.storeCurrentId + 1) "brown" (459/100) (rand 1) now)).2 (demoPriceIns (st.storeCurrentId + 2) "brown" (489/100) (rand 2) now)).2 (demoPriceIns st.storeCurrentId "white" (399/100) (rand 3) now)).2 (demoPriceIns (st.storeCurrentId + 1) "white" (419/100) (rand 4) now)).2 (demoPriceIns (st.storeCurrentId + 2) "white" (449/100) (rand 5) now)).2 (st.storeCurrentId + 2) =
      some (demoStore3 zip c (st.storeCurrentId + 2)) := by
    unfold getStore
    rw [hsd]
    refine mapGet_append_fresh _ _ _ ?_
    rw [mapKeys_append, mapKeys_append]
    intro hmem
    rcases List.mem_append.mp hmem with hmem | hmem
    · rcases List.mem_append.mp hmem with hmem | hmem
      · exact absurd (hkeys _ hmem) (by omega)
      · simp only [mapKeys, List.map_cons, List.map_nil,
          List.mem_singleton] at hmem
        omega
    · simp only [mapKeys, List.map_cons, List.map_nil,
        List.mem_singleton] at hmem
      omega
  have hgp : getPrices (createPrice now (createPrice now (createPrice now (createPrice now (createPrice now (createPrice now (createStore (createStore (createStore st (demoIns1 zip c)).2 (demoIns2 zip c)).2 (demoIns3 zip c)).2 (demoPriceIns st.storeCurrentId "brown" (429/100) (rand 0) now)).2 (demoPriceIns (st.storeCurrentId + 1) "brown" (459/100) (rand 1) now)).2 (demoPriceIns (st.storeCurrentId + 2) "brown" (489/100) (rand 2) now)).2 (demoPriceIns st.storeCurrentId "white" (399/100) (rand 3) now)).2 (demoPriceIns (st.storeCurrentId + 1) "white" (419/100) (rand 4) now)).2 (demoPriceIns (st.storeCurrentId + 2) "white" (449/100) (rand 5) now)).2 = ((((((getPrices st ++
      [(createPrice now (createStore (createStore (createStore st (demoIns1 zip c)).2 (demoIns2 zip c)).2 (demoIns3 zip c)).2 (demoPriceIns st.storeCurrentId "brown" (429/100) (rand 0) now)).1]) ++ [(createPrice now (createPrice now (createStore (createStore (createStore st (demoIns1 zip c)).2 (demoIns2 zip c)).2 (demoIns3 zip c)).2 (demoPriceIns st.storeCurrentId "brown" (429/100) (rand 0) now)).2 (demoPriceIns (st.storeCurrentId + 1) "brown" (459/100) (rand 1) now)).1]) ++ [(createPrice now (createPrice now (createPrice now (createStore (createStore (createStore st (demoIns1 zip c)).2 (demoIns2 zip c)).2 (demoIns3 zip c)).2 (demoPriceIns st.storeCurrentId "brown" (429/100) (rand 0) now)).2 (demoPriceIns (st.storeCurrentId + 1) "brown" (459/100) (rand 1) now)).2 (demoPriceIns (st.storeCurrentId + 2) "brown" (489/100) (rand 2) now)).1]) ++ [(createPrice now (createPrice now (createPrice now (createPrice now (createStore (createStore (createStore st (demoIns1 zip c)).2 (demoIns2 zip c)).2 (demoIns3 zip c)).2 (demoPriceIns st.storeCurrentId "brown" (429/100) (rand 0) now)).2 (demoPriceIns (st.storeCurrentId + 1) "brown" (459/100) (rand 1) now)).2 (demoPriceIns (st.storeCurrentId + 2) "brown" (489/100) (rand 2) now)).2 (demoPriceIns st.storeCurrentId "white" (399/100) (rand 3) now)).1]) ++
      [(createPrice now (createPrice now (createPrice now (createPrice now (createPrice now (createStore (createStore (createStore st (demoIns1 zip c)).2 (demoIns2 zip c)).2 (demoIns3 zip c)).2 (demoPriceIns st.storeCurrentId "brown" (429/100) (rand 0) now)).2 (demoPriceIns (st.storeCurrentId + 1) "brown" (459/100) (rand 1) now)).2 (demoPriceIns (st.storeCurrentId + 2) "brown" (489/100) (rand 2) now)).2 (demoPriceIns st.storeCurrentId "white" (399/100) (rand 3) now)).2 (demoPriceIns (st.storeCurrentId + 1) "white" (419/100) (rand 4) now)).1]) ++ [(createPrice now (createPrice now (createPrice now (createPrice now (createPrice now (createPrice now (createStore (createStore (createStore st (demoIns1 zip c)).2 (demoIns2 zip c)).2 (demoIns3 zip c)).2 (demoPriceIns st.storeCurrentId "brown" (429/100) (rand 0) now)).2 (demoPriceIns (st.storeCurrentId + 1) "brown" (459/100) (rand 1) now)).2 (demoPriceIns (st.storeCurrentId + 2) "brown" (489/100) (rand 2) now)).2 (demoPriceIns st.storeCurrentId "white" (399/100) (rand 3) now)).2 (demoPriceIns (st.storeCurrentId + 1) "white" (419/100) (rand 4) now)).2 (demoPriceIns (st.storeCurrentId + 2) "white" (449/100) (rand 5) now)).1]) := by
    have e0 : getPrices (createStore (createStore (createStore st (demoIns1 zip c)).2 (demoIns2 zip c)).2 (demoIns3 zip c)).2 = getPrices st := rfl
    rw [createPrice_getPrices hP8, createPrice_getPrices hP7,
      createPrice_getPrices hP6, createPrice_getPrices hP5,
      createPrice_getPrices hP4, createPrice_getPrices hP3, e0]
  refine ⟨?_, ?_, ?_, ?_, ?_, ?_⟩
  · rw [hB]
    exact ⟨hS3, hP9⟩
  · rw [hB, hgs]
    simp [List.append_assoc]
  · rw [hB]
    exact hg1
  · rw [hB]
    exact hg2
  · rw [hB]
    exact hg3
  · intro e he i hi
    rw [hB]
    have hmem : ∀ k, k ∈ [(createPrice now (createStore (createStore (createStore st (demoIns1 zip c)).2 (demoIns2 zip c)).2 (demoIns3 zip c)).2 (demoPriceIns st.storeCurrentId "brown" (429/100) (rand 0) now)).1, (createPrice now (createPrice now (createStore (createStore (createStore st (demoIns1 zip c)).2 (demoIns2 zip c)).2 (demoIns3 zip c)).2 (demoPriceIns st.storeCurrentId "brown" (429/100) (rand 0) now)).2 (demoPriceIns (st.storeCurrentId + 1) "brown" (459/100) (rand 1) now)).1, (createPrice now (createPrice now (createPrice now (createStore (createStore (createStore st (demoIns1 zip c)).2 (demoIns2 zip c)).2 (demoIns3 zip c)).2 (demoPriceIns st.storeCurrentId "brown" (429/100) (rand 0) now)).2 (demoPriceIns (st.storeCurrentId + 1) "brown" (459/100) (rand 1) now)).2 (demoPriceIns (st.storeCurrentId + 2) "brown" (489/100) (rand 2) now)).1, (createPrice now (createPrice now (createPrice now (createPrice now (createStore (createStore (createStore st (demoIns1 zip c)).2 (demoIns2 zip c)).2 (demoIns3 zip c)).2 (demoPriceIns st.storeCurrentId "brown" (429/100) (rand 0) now)).2 (demoPriceIns (st.storeCurrentId + 1) "brown" (459/100) (rand 1) now)).2 (demoPriceIns (st.storeCurrentId + 2) "brown" (489/100) (rand 2) now)).2 (demoPriceIns st.storeCurrentId "white" (399/100) (rand 3) now)).1,
        (createPrice now (createPrice now (createPrice now (createPrice now (createPrice now (createStore (createStore (createStore st (demoIns1 zip c)).2 (demoIns2 zip c)).2 (demoIns3 zip c)).2 (demoPriceIns st.storeCurrentId "brown" (429/100) (rand 0) now)).2 (demoPriceIns (st.storeCurrentId + 1) "brown" (459/100) (rand 1) now)).2 (demoPriceIns (st.storeCurrentId + 2) "brown" (489/100) (rand 2) now)).2 (demoPriceIns st.storeCurrentId "white" (399/100) (rand 3) now)).2 (demoPriceIns (st.storeCurrentId + 1) "white" (419/100) (rand 4) now)).1, (createPrice now (createPrice now (createPrice now (createPrice now (createPrice now (createPrice now (createStore (createStore (createStore st (demoIns1 zip c)).2 (demoIns2 zip c)).2 (demoIns3 zip c)).2 (demoPriceIns st.storeCurrentId "brown" (429/100) (rand 0) now)).2 (demoPriceIns (st.storeCurrentId + 1) "brown" (459/100) (rand 1) now)).2 (demoPriceIns (st.storeCurrentId + 2) "brown" (489/100) (rand 2) now)).2 (demoPriceIns st.storeCurrentId "white" (399/100) (rand 3) now)).2 (demoPriceIns (st.storeCurrentId + 1) "white" (419/100) (rand 4) now)).2 (demoPriceIns (st.storeCurrentId + 2) "white" (449/100) (rand 5) now)).1] → k ∈ getPrices (createPrice now (createPrice now (createPrice now (createPrice now (createPrice now (createPrice now (createStore (createStore (createStore st (demoIns1 zip c)).2 (demoIns2 zip c)).2 (demoIns3 zip c)).2 (demoPriceIns st.storeCurrentId "brown" (429/100) (rand 0) now)).2 (demoPriceIns (st.storeCurrentId + 1) "brown" (459/100) (rand 1) now)).2 (demoPriceIns (st.storeCurrentId + 2) "brown" (489/100) (rand 2) now)).2 (demoPriceIns st.storeCurrentId "white" (399/100) (rand 3) now)).2 (demoPriceIns (st.storeCurrentId + 1) "white" (419/100) (rand 4) now)).2 (demoPriceIns (st.storeCurrentId + 2) "white" (449/100) (rand 5) now)).2 := by
      intro k hk
      rw [hgp]
      simp only [List.mem_append, List.mem_singleton, List.mem_cons,
        List.not_mem_nil, or_false] at hk ⊢
      tauto
    rcases he with rfl | rfl <;> rcases hi with rfl | rfl | rfl
    · exact latest_isSome_of_mem _ (createPrice now (createStore (createStore (createStore st (demoIns1 zip c)).2 (demoIns2 zip c)).2 (demoIns3 zip c)).2 (demoPriceIns st.storeCurrentId "brown" (429/100) (rand 0) now)).1 (hmem _ (by simp)) _ _ rfl rfl
    · exact latest_isSome_of_mem _ (createPrice now (createPrice now (createStore (createStore (createStore st (demoIns1 zip c)).2 (demoIns2 zip c)).2 (demoIns3 zip c)).2 (demoPriceIns st.storeCurrentId "brown" (429/100) (rand 0) now)).2 (demoPriceIns (st.storeCurrentId + 1) "brown" (459/100) (rand 1) now)).1 (hmem _ (by simp)) _ _ rfl rfl
    · exact latest_isSome_of_mem _ (createPrice now (createPrice now (createPrice now (createStore (createStore (createStore st (demoIns1 zip c)).2 (demoIns2 zip c)).2 (demoIns3 zip c)).2 (demoPriceIns st.storeCurrentId "brown" (429/100) (rand 0) now)).2 (demoPriceIns (st.storeCurrentId + 1) "brown" (459/100) (rand 1) now)).2 (demoPriceIns (st.storeCurrentId + 2) "brown" (489/100) (rand 2) now)).1 (hmem _ (by simp)) _ _ rfl rfl
    · exact latest_isSome_of_mem _ (createPrice now (createPrice now (createPrice now (createPrice now (createStore (createStore (createStore st (demoIns1 zip c)).2 (demoIns2 zip c)).2 (demoIns3 zip c)).2 (demoPriceIns st.storeCurrentId "brown" (429/100) (rand 0) now)).2 (demoPriceIns (st.storeCurrentId + 1) "brown" (459/100) (rand 1) now)).2 (demoPriceIns (st.storeCurrentId + 2) "brown" (489/100) (rand 2) now)).2 (demoPriceIns st.storeCurrentId "white" (399/100) (rand 3) now)).1 (hmem _ (by simp)) _ _ rfl rfl
    · exact latest_isSome_of_mem _ (createPrice now (createPrice now (createPrice now (createPrice now (createPrice now (createStore (createStore (createStore st (demoIns1 zip c)).2 (demoIns2 zip c)).2 (demoIns3 zip c)).2 (demoPriceIns st.storeCurrentId "brown" (429/100) (rand 0) now)).2 (demoPriceIns (st.storeCurrentId + 1) "brown" (459/100) (rand 1) now)).2 (demoPriceIns (st.storeCurrentId + 2) "brown" (489/100) (rand 2) now)).2 (demoPriceIns st.storeCurrentId "white" (399/100) (rand 3) now)).2 (demoPriceIns (st.storeCurrentId + 1) "white" (419/100) (rand 4) now)).1 (hmem _ (by simp)) _ _ rfl rfl
    · exact latest_isSome_of_mem _ (createPrice now (createPrice now (createPrice now (createPrice now (createPrice now (createPrice now (createStore (createStore (createStore st (demoIns1 zip c)).2 (demoIns2 zip c)).2 (demoIns3 zip c)).2 (demoPriceIns st.storeCurrentId "brown" (429/100) (rand 0) now)).2 (demoPriceIns (st.storeCurrentId + 1) "brown" (459/100) (rand 1) now)).2 (demoPriceIns (st.storeCurrentId + 2) "brown" (489/100) (rand 2) now)).2 (demoPriceIns st.storeCurrentId "white" (399/100) (rand 3) now)).2 (demoPriceIns (st.storeCurrentId + 1) "white" (419/100) (rand 4) now)).2 (demoPriceIns (st.storeCurrentId + 2) "white" (449/100) (rand 5) now)).1 (hmem _ (by simp)) _ _ rfl rfl

theorem js_parseInt_empty : js_parseInt "" = none := rfl

theorem jsOr_some_ne (s d : String) (h : s ≠ "") : jsOr (some s) d = s := by
  unfold jsOr
  split
  · rename_i heq
    cases heq
  · rename_i heq
    cases heq
    exact absurd rfl h
  · rename_i s2 heq
    exact (Option.some.inj heq).symm

theorem parseInt_toString (r : ℤ) (h1 : 1 ≤ r) (h2 : r ≤ 20) :
    js_parseInt (toString r) = some r ∧ toString r ≠ "" := by
  interval_cases r <;> exact ⟨by decide, by decide⟩

theorem toLower_fixed (egg : String) (h : egg = "white" ∨ egg = "brown") :
    jsToLower egg = egg := by
  rcases h with rfl | rfl <;> decide

theorem withinRadiusJS_true (la lb pa pb r : ℚ)
    (h : calculateDistance (la : ℝ) (lb : ℝ) (pa : ℝ) (pb : ℝ) ≤ (r : ℝ)) :
    withinRadiusJS (some la) (some lb) (some pa) (some pb) r = true := by
  unfold withinRadiusJS isWithinRadius
  exact decide_eq_true h

theorem demo_within (a b : ℚ) (rq : ℚ) (hr : (5 : ℚ)/2 ≤ rq) :
    withinRadiusJS (some a) (some b) (some a) (some b) rq = true ∧
    withinRadiusJS (some a) (some b) (some (a + 1/100)) (some (b - 1/100))
      rq = true ∧
    withinRadiusJS (some a) (some b) (some (a - 2/100)) (some (b + 15/1000))
      rq = true := by
  have hrr : ((5 : ℚ)/2 : ℝ) ≤ ((rq : ℚ) : ℝ) := by exact_mod_cast hr
  have hrr2 : (5/2 : ℝ) ≤ ((rq : ℚ) : ℝ) := by
    refine le_trans ?_ hrr
    norm_num
  refine ⟨withinRadiusJS_true _ _ _ _ _ ?_, withinRadiusJS_true _ _ _ _ _ ?_,
    withinRadiusJS_true _ _ _ _ _ ?_⟩
  · have hb := calculateDistance_le_bound (a : ℝ) (b : ℝ) (a : ℝ) (b : ℝ)
      0 0 (le_refl 0) (le_refl 0) (by norm_num) (by simp) (by simp)
    push_cast at hb
    linarith
  · have hb := calculateDistance_le_bound (a : ℝ) (b : ℝ)
      ((a + 1/100 : ℚ) : ℝ) ((b - 1/100 : ℚ) : ℝ) (1/100) (1/100)
      (by norm_num) (by norm_num) (by norm_num)
      (by push_cast; rw [abs_le]; constructor <;> linarith)
      (by push_cast; rw [abs_le]; constructor <;> linarith)
    push_cast at hb ⊢
    linarith
  · have hb := calculateDistance_le_bound (a : ℝ) (b : ℝ)
      ((a - 2/100 : ℚ) : ℝ) ((b + 15/1000 : ℚ) : ℝ) (2/100) (15/1000)
      (by norm_num) (by norm_num) (by norm_num)
      (by push_cast; rw [abs_le]; constructor <;> linarith)
      (by push_cast; rw [abs_le]; constructor <;> linarith)
    push_cast at hb ⊢
    linarith

theorem filter_empty_of_hempty (l : List Store) (a b : ℚ) (rq : ℚ)
    (h : ∀ s ∈ l, withinRadiusJS (some a) (some b) s.latitude
      s.longitude rq = false) :
    l.filter (fun s => withinRadiusJS (some a) (some b)
      s.latitude s.longitude rq) = [] := by
  rw [List.filter_eq_nil_iff]
  intro s hs
  rw [h s hs]
  exact Bool.false_ne_true

theorem c2_run1 (rand : ℕ → ℚ) (now : ℤ) (st : MemStorage)
    (zip rs es : String) (r : ℤ) (a b : ℚ)
    (hzip : isZip5 zip = true)
    (hg : getCoordinatesForZipCode zip = some ⟨some a, some b⟩)
    (hr : js_parseInt rs = some r)
    (hrange : ¬(r < 1 ∨ 20 < r))
    (hrsne : rs ≠ "")
    (hesne : es ≠ "")
    (heggset : jsToLower es = "white" ∨ jsToLower es = "brown")
    (hempty : ∀ s ∈ getStores st, withinRadiusJS (some a) (some b)
      s.latitude s.longitude ((r : ℚ) + 1/2) = false) :
    pricesHandler true rand now st ⟨some zip, some rs, some es⟩ =
      backfillDemoStores rand now st zip ⟨some a, some b⟩ r (jsToLower es) := by
  unfold pricesHandler
  dsimp only
  rw [hzip, if_neg (by decide : ¬(true = false)),
    jsOr_some_ne rs "5" hrsne, hr]
  dsimp only
  rw [if_neg hrange, jsOr_some_ne es "brown" hesne,
    if_neg (not_not_intro heggset)]
  unfold searchCore
  rw [hg]
  dsimp only
  rw [filter_empty_of_hempty (getStores st) a b ((r : ℚ) + 1/2) hempty]
  rfl

/-- The view `getStoresWithPrices` builds for one resolved store. -/
def joinView (st : MemStorage) (eggType : String) (id : ℕ) (store : Store) :
    StoreWithPrices :=
  { store with
    currentPrice := (getLatestPriceByStore st id eggType).map (·.price)
    priceHistory := (getPricesByStoreId st id).filter
      (fun p => p.eggType == eggType) }

set_option maxHeartbeats 1000000 in
theorem c2_run2 (rand2 : ℕ → ℚ) (now2 : ℤ) (B2 : MemStorage)
    (zip egg : String) (r : ℤ) (a b : ℚ) (old : List Store) (S1 S2 S3 : Store)
    (hzip : isZip5 zip = true)
    (hg : getCoordinatesForZipCode zip = some ⟨some a, some b⟩)
    (hr2 : 2 ≤ r) (hr20 : r ≤ 20)
    (heggset : egg = "white" ∨ egg = "brown")
    (hgs : getStores B2 = old ++ [S1, S2, S3])
    (hold : ∀ s ∈ old, withinRadiusJS (some a) (some b) s.latitude
      s.longitude ((r : ℚ) + 1/2) = false)
    (h1lat : S1.latitude = some a) (h1lng : S1.longitude = some b)
    (h2lat : S2.latitude = some (a + 1/100))
    (h2lng : S2.longitude = some (b - 1/100))
    (h3lat : S3.latitude = some (a - 2/100))
    (h3lng : S3.longitude = some (b + 15/1000))
    (hget1 : getStore B2 S1.id = some S1)
    (hget2 : getStore B2 S2.id = some S2)
    (hget3 : getStore B2 S3.id = some S3) :
    ∃ mn mx, pricesHandler true rand2 now2 B2
        ⟨some zip, some (toString r), some egg⟩ =
      (.ok [withZip (joinView B2 egg S1.id S1) zip,
            withZip (joinView B2 egg S2.id S2) zip,
            withZip (joinView B2 egg S3.id S3) zip] mn mx, B2) := by
  obtain ⟨hpt, htne⟩ := parseInt_toString r (by omega) hr20
  have hegne : egg ≠ "" := by rcases heggset with rfl | rfl <;> decide
  have hrange : ¬(r < 1 ∨ 20 < r) := by omega
  have hr2q : (5 : ℚ)/2 ≤ (r : ℚ) + 1/2 := by
    have : (2 : ℚ) ≤ (r : ℚ) := by exact_mod_cast hr2
    linarith
  have hw := demo_within a b ((r : ℚ) + 1/2) hr2q
  have hw1 : withinRadiusJS (some a) (some b) S1.latitude S1.longitude
      ((r : ℚ) + 1/2) = true := by rw [h1lat, h1lng]; exact hw.1
  have hw2 : withinRadiusJS (some a) (some b) S2.latitude S2.longitude
      ((r : ℚ) + 1/2) = true := by rw [h2lat, h2lng]; exact hw.2.1
  have hw3 : withinRadiusJS (some a) (some b) S3.latitude S3.longitude
      ((r : ℚ) + 1/2) = true := by rw [h3lat, h3lng]; exact hw.2.2
  unfold pricesHandler
  dsimp only
  rw [hzip, if_neg (by decide : ¬(true = false)),
    jsOr_some_ne _ "5" htne, hpt]
  dsimp only
  rw [if_neg hrange, jsOr_some_ne egg "brown" hegne,
    toLower_fixed egg heggset, if_neg (not_not_intro heggset)]
  unfold searchCore
  rw [hg]
  dsimp only
  have hfB : (getStores B2).filter (fun s =>
      withinRadiusJS (some a) (some b) s.latitude s.longitude
        ((r : ℚ) + 1/2)) = [S1, S2, S3] := by
    rw [hgs, List.filter_append,
      filter_empty_of_hempty old a b ((r : ℚ) + 1/2) hold]
    simp only [List.filter_cons, List.filter_nil, hw1, hw2, hw3, if_true]
    rfl
  rw [hfB]
  rw [if_neg (by simp : ¬(([S1, S2, S3] : List Store).length = 0))]
  unfold okResponse
  dsimp only [List.map_cons, List.map_nil]
  have hviews : getStoresWithPrices B2 [S1.id, S2.id, S3.id] egg =
      [joinView B2 egg S1.id S1, joinView B2 egg S2.id S2,
       joinView B2 egg S3.id S3] := by
    unfold getStoresWithPrices joinView
    simp only [List.filterMap_cons, List.filterMap_nil, hget1, hget2, hget3,
      Option.map_some']
  rw [hviews]
  exact ⟨_, _, rfl⟩

theorem option_map_isSome {α β : Type} (f : α → β) (o : Option α)
    (ho : o.isSome = true) : (o.map f).isSome = true := by
  obtain ⟨p, hp⟩ := Option.isSome_iff_exists.mp ho
  rw [hp]
  rfl

/-- C2 (amended): for every valid search request with a 5-digit zip, an
integer radius in **[2, 20]** and a valid egg type, whose radius filter over
the existing stores yields zero results, the dev-mode handler creates the
three demo stores at the resolved center and at offsets (+0.01, −0.01) and
(−0.02, +0.015), gives each a brown and a white price, and the followed
redirect answers 200 with exactly those three stores, all with non-null
`currentPrice`.  (The original claim, over the full radius range [1, 20],
fails at radius 1: the third demo store lies ≈1.54–1.73 miles out, beyond
the 1.5-mile buffered filter.) -/
theorem c2_synthetic_backfill (rand rand2 : ℕ → ℚ) (now now2 : ℤ)
    (st : MemStorage) (zip rs es : String) (r : ℤ)
    (hwf : storageWF st)
    (hzip : isZip5 zip = true)
    (hr : js_parseInt rs = some r) (hrsne : rs ≠ "")
    (hr2 : 2 ≤ r) (hr20 : r ≤ 20)
    (hesne : es ≠ "")
    (heggset : jsToLower es = "white" ∨ jsToLower es = "brown")
    (hempty : ∀ a b : ℚ, getCoordinatesForZipCode zip = some ⟨some a, some b⟩ →
      ∀ s ∈ getStores st, withinRadiusJS (some a) (some b) s.latitude
        s.longitude ((r : ℚ) + 1/2) = false) :
    ∃ (a b : ℚ) (V1 V2 V3 : StoreWithPrices) (mn mx : Option ℚ),
      getCoordinatesForZipCode zip = some ⟨some a, some b⟩ ∧
      pricesSearchFollow true rand rand2 now now2 st
          ⟨some zip, some rs, some es⟩ =
        (.ok [V1, V2, V3] mn mx,
          (backfillDemoStores rand now st zip ⟨some a, some b⟩ r
            (jsToLower es)).2) ∧
      V1.name = "Local Grocery" ∧ V2.name = "Farmers Market" ∧
      V3.name = "Organic Essentials" ∧
      V1.latitude = some a ∧ V1.longitude = some b ∧
      V2.latitude = some (a + 1/100) ∧ V2.longitude = some (b - 1/100) ∧
      V3.latitude = some (a - 2/100) ∧ V3.longitude = some (b + 15/1000) ∧
      V1.currentPrice.isSome = true ∧ V2.currentPrice.isSome = true ∧
      V3.currentPrice.isSome = true := by
  obtain ⟨a, b, hg⟩ := geocode_zip5 zip hzip
  obtain ⟨hwfB, hgs, hget1, hget2, hget3, hlatest⟩ :=
    backfill_state rand now st zip ⟨some a, some b⟩ r (jsToLower es) hwf
  have h1 := c2_run1 rand now st zip rs es r a b hzip hg hr (by omega)
    hrsne hesne heggset (hempty a b hg)
  obtain ⟨mn, mx, h2⟩ := c2_run2 rand2 now2
    (backfillDemoStores rand now st zip ⟨some a, some b⟩ r (jsToLower es)).2
    zip (jsToLower es) r a b (getStores st)
    (demoStore1 zip ⟨some a, some b⟩ st.storeCurrentId)
    (demoStore2 zip ⟨some a, some b⟩ (st.storeCurrentId + 1))
    (demoStore3 zip ⟨some a, some b⟩ (st.storeCurrentId + 2))
    hzip hg hr2 hr20 heggset hgs (hempty a b hg)
    rfl rfl rfl rfl rfl rfl hget1 hget2 hget3
  have hchain : pricesSearchFollow true rand rand2 now now2 st
      ⟨some zip, some rs, some es⟩ =
      pricesHandler true rand2 now2
        (backfillDemoStores rand now st zip ⟨some a, some b⟩ r
          (jsToLower es)).2
        ⟨some zip, some (toString r), some (jsToLower es)⟩ := by
    unfold pricesSearchFollow
    rw [h1]
    rfl
  refine ⟨a, b, _, _, _, mn, mx, hg, hchain.trans h2, rfl, rfl, rfl, rfl,
    rfl, rfl, rfl, rfl, rfl, ?_, ?_, ?_⟩
  · exact option_map_isSome _ _
      (hlatest (jsToLower es) (Or.symm heggset) _ (Or.inl rfl))
  · exact option_map_isSome _ _
      (hlatest (jsToLower es) (Or.symm heggset) _ (Or.inr (Or.inl rfl)))
  · exact option_map_isSome _ _
      (hlatest (jsToLower es) (Or.symm heggset) _ (Or.inr (Or.inr rfl)))

theorem c2_synthetic_backfill_witness :
    ∃ (a b : ℚ) (V1 V2 V3 : StoreWithPrices) (mn mx : Option ℚ),
      getCoordinatesForZipCode "94110" = some ⟨some a, some b⟩ ∧
      pricesSearchFollow true (fun _ => 0) (fun _ => 0) 0 0 emptyStorage
          ⟨some "94110", some "5", some "brown"⟩ =
        (.ok [V1, V2, V3] mn mx,
          (backfillDemoStores (fun _ => 0) 0 emptyStorage "94110"
            ⟨some a, some b⟩ 5 (jsToLower "brown")).2) ∧
      V1.name = "Local Grocery" ∧ V2.name = "Farmers Market" ∧
      V3.name = "Organic Essentials" ∧
      V1.latitude = some a ∧ V1.longitude = some b ∧
      V2.latitude = some (a + 1/100) ∧ V2.longitude = some (b - 1/100) ∧
      V3.latitude = some (a - 2/100) ∧ V3.longitude = some (b + 15/1000) ∧
      V1.currentPrice.isSome = true ∧ V2.currentPrice.isSome = true ∧
      V3.currentPrice.isSome = true :=
  c2_synthetic_backfill (fun _ => 0) (fun _ => 0) 0 0 emptyStorage
    "94110" "5" "brown" 5
    ⟨⟨fun kv h => absurd h (List.not_mem_nil kv), List.nodup_nil⟩,
     fun kv h => absurd h (List.not_mem_nil kv), List.nodup_nil⟩
    (by decide) (by decide) (by decide) (by decide) (by decide) (by decide)
    (Or.inr (by decide))
    (fun a b _ s hs => absurd hs (List.not_mem_nil s))

set_option maxHeartbeats 4000000 in
theorem demo3_far_real :
    (3/2 : ℝ) < calculateDistance 47.78 (-122.315) 47.76 (-122.3) := by
  have hpi := Real.pi_lt_3141593
  have hpi2 := Real.pi_gt_3141592
  have hpi0 := Real.pi_pos
  unfold calculateDistance toRad
  dsimp only
  have hd1 : ((47.76 : ℝ) - 47.78) * Real.pi / 180 / 2 =
      -(Real.pi / 18000) := by
    have h0 : (47.76 : ℝ) - 47.78 = -(1/50) := by norm_num
    rw [h0]; ring
  have hd2 : ((-122.3 : ℝ) - (-122.315)) * Real.pi / 180 / 2 =
      Real.pi / 24000 := by
    have h0 : (-122.3 : ℝ) - (-122.315) = 3/200 := by norm_num
    rw [h0]; ring
  rw [hd1, hd2, Real.sin_neg, neg_mul_neg]
  have hxl : (17453288e-11 : ℝ) < Real.pi / 18000 := by
    rw [lt_div_iff (by norm_num : (0:ℝ) < 18000)]
    nlinarith [hpi2]
  have hxu : Real.pi / 18000 ≤ 17453295e-11 := by
    rw [div_le_iff (by norm_num : (0:ℝ) < 18000)]
    nlinarith [hpi]
  have hx0 : (0:ℝ) < Real.pi / 18000 := by positivity
  have hx1 : Real.pi / 18000 ≤ 1 := le_trans hxu (by norm_num)
  have hsinx := Real.sin_gt_sub_cube hx0 hx1
  have hx3 : (Real.pi / 18000) ^ 3 ≤ 6e-12 := by
    calc (Real.pi / 18000) ^ 3 ≤ (17453295e-11 : ℝ) ^ 3 :=
          pow_le_pow_left (le_of_lt hx0) hxu 3
      _ ≤ 6e-12 := by norm_num
  have hsx : (17453e-8 : ℝ) ≤ Real.sin (Real.pi / 18000) := by
    linarith [hsinx, hx3, hxl]
  have hs1sq : (30460e-12 : ℝ) ≤
      Real.sin (Real.pi / 18000) * Real.sin (Real.pi / 18000) := by
    nlinarith [hsx]
  have hyl : (13089966e-11 : ℝ) < Real.pi / 24000 := by
    rw [lt_div_iff (by norm_num : (0:ℝ) < 24000)]
    nlinarith [hpi2]
  have hyu : Real.pi / 24000 ≤ 13089971e-11 := by
    rw [div_le_iff (by norm_num : (0:ℝ) < 24000)]
    nlinarith [hpi]
  have hy0 : (0:ℝ) < Real.pi / 24000 := by positivity
  have hy1 : Real.pi / 24000 ≤ 1 := le_trans hyu (by norm_num)
  have hsiny := Real.sin_gt_sub_cube hy0 hy1
  have hy3 : (Real.pi / 24000) ^ 3 ≤ 3e-12 := by
    calc (Real.pi / 24000) ^ 3 ≤ (13089971e-11 : ℝ) ^ 3 :=
          pow_le_pow_left (le_of_lt hy0) hyu 3
      _ ≤ 3e-12 := by norm_num
  have hsy : (130899e-9 : ℝ) ≤ Real.sin (Real.pi / 24000) := by
    linarith [hsiny, hy3, hyl]
  have hs2sq : (171345e-13 : ℝ) ≤
      Real.sin (Real.pi / 24000) * Real.sin (Real.pi / 24000) := by
    nlinarith [hsy]
  have ht1u : (47.78 : ℝ) * Real.pi / 180 ≤ 833919e-6 := by
    rw [div_le_iff (by norm_num : (0:ℝ) < 180)]
    nlinarith [hpi]
  have ht1l : (0:ℝ) ≤ (47.78 : ℝ) * Real.pi / 180 := by positivity
  have hc1 : 1 - ((47.78 : ℝ) * Real.pi / 180) ^ 2 / 2 ≤
      Real.cos ((47.78 : ℝ) * Real.pi / 180) :=
    Real.one_sub_sq_div_two_le_cos
  have hcos1 : (65228e-5 : ℝ) ≤ Real.cos ((47.78 : ℝ) * Real.pi / 180) := by
    nlinarith [hc1, ht1u, ht1l]
  have ht2u : (47.76 : ℝ) * Real.pi / 180 ≤ 833570e-6 := by
    rw [div_le_iff (by norm_num : (0:ℝ) < 180)]
    nlinarith [hpi]
  have ht2l : (0:ℝ) ≤ (47.76 : ℝ) * Real.pi / 180 := by positivity
  have hc2 : 1 - ((47.76 : ℝ) * Real.pi / 180) ^ 2 / 2 ≤
      Real.cos ((47.76 : ℝ) * Real.pi / 180) :=
    Real.one_sub_sq_div_two_le_cos
  have hcos2 : (65258e-5 : ℝ) ≤ Real.cos ((47.76 : ℝ) * Real.pi / 180) := by
    nlinarith [hc2, ht2u, ht2l]
  have hcc : (42e-2 : ℝ) ≤ Real.cos ((47.78 : ℝ) * Real.pi / 180) *
      Real.cos ((47.76 : ℝ) * Real.pi / 180) := by
    nlinarith [hcos1, hcos2]
  have hccnn : (0:ℝ) ≤ Real.cos ((47.78 : ℝ) * Real.pi / 180) *
      Real.cos ((47.76 : ℝ) * Real.pi / 180) := le_trans (by norm_num) hcc
  have hmul : (42e-2 : ℝ) * 171345e-13 ≤
      Real.cos ((47.78 : ℝ) * Real.pi / 180) *
        Real.cos ((47.76 : ℝ) * Real.pi / 180) *
        (Real.sin (Real.pi / 24000) * Real.sin (Real.pi / 24000)) :=
    mul_le_mul hcc hs2sq (by norm_num) hccnn
  have hsxusq : Real.sin (Real.pi / 18000) * Real.sin (Real.pi / 18000) ≤
      31e-9 := by
    have h1 : Real.sin (Real.pi / 18000) ^ 2 ≤ (Real.pi / 18000) ^ 2 :=
      Real.sin_sq_le_sq
    have h2 : (Real.pi / 18000) ^ 2 ≤ (17453295e-11 : ℝ) ^ 2 :=
      pow_le_pow_left (le_of_lt hx0) hxu 2
    nlinarith [h1, h2]
  have hsyusq : Real.sin (Real.pi / 24000) * Real.sin (Real.pi / 24000) ≤
      18e-9 := by
    have h1 : Real.sin (Real.pi / 24000) ^ 2 ≤ (Real.pi / 24000) ^ 2 :=
      Real.sin_sq_le_sq
    have h2 : (Real.pi / 24000) ^ 2 ≤ (13089971e-11 : ℝ) ^ 2 :=
      pow_le_pow_left (le_of_lt hy0) hyu 2
    nlinarith [h1, h2]
  have hcc1 : Real.cos ((47.78 : ℝ) * Real.pi / 180) *
      Real.cos ((47.76 : ℝ) * Real.pi / 180) ≤ 1 := by
    calc Real.cos ((47.78 : ℝ) * Real.pi / 180) *
        Real.cos ((47.76 : ℝ) * Real.pi / 180)
        ≤ |Real.cos ((47.78 : ℝ) * Real.pi / 180) *
            Real.cos ((47.76 : ℝ) * Real.pi / 180)| := le_abs_self _
      _ = |Real.cos ((47.78 : ℝ) * Real.pi / 180)| *
            |Real.cos ((47.76 : ℝ) * Real.pi / 180)| := abs_mul _ _
      _ ≤ 1 * 1 := mul_le_mul (Real.abs_cos_le_one _) (Real.abs_cos_le_one _)
            (abs_nonneg _) (by norm_num)
      _ = 1 := one_mul 1
  have hprodu : Real.cos ((47.78 : ℝ) * Real.pi / 180) *
      Real.cos ((47.76 : ℝ) * Real.pi / 180) *
      (Real.sin (Real.pi / 24000) * Real.sin (Real.pi / 24000)) ≤
      Real.sin (Real.pi / 24000) * Real.sin (Real.pi / 24000) :=
    mul_le_of_le_one_left (mul_self_nonneg _) hcc1
  obtain ⟨aa, haa⟩ : ∃ t : ℝ,
      Real.sin (Real.pi / 18000) * Real.sin (Real.pi / 18000) +
        Real.cos ((47.78 : ℝ) * Real.pi / 180) *
          Real.cos ((47.76 : ℝ) * Real.pi / 180) *
          (Real.sin (Real.pi / 24000) * Real.sin (Real.pi / 24000)) = t :=
    ⟨_, rfl⟩
  rw [haa]
  have haal : (376e-10 : ℝ) ≤ aa := by
    rw [← haa]
    linarith [hs1sq, hmul]
  have haau : aa ≤ 1e-6 := by
    rw [← haa]
    linarith [hsxusq, hsyusq, hprodu]
  have haa0 : (0:ℝ) ≤ aa := le_trans (by norm_num) haal
  have hsq1 : 0 < Real.sqrt (1 - aa) := Real.sqrt_pos.mpr (by linarith)
  rw [atan2_pos_x _ _ hsq1]
  have hsqa2 : Real.sqrt aa ^ 2 = aa := Real.sq_sqrt haa0
  have h6 : Real.sqrt 1e-6 = 1e-3 := by
    rw [show (1e-6 : ℝ) = (1e-3 : ℝ) ^ 2 by norm_num]
    exact Real.sqrt_sq (by norm_num)
  have hsqau : Real.sqrt aa ≤ 1e-3 := h6 ▸ Real.sqrt_le_sqrt haau
  have hmem : Real.sqrt aa ∈ Set.Ioo (-(1:ℝ)) 1 :=
    ⟨by linarith [Real.sqrt_nonneg aa], by linarith [hsqau]⟩
  have harceq := Real.arcsin_eq_arctan hmem
  rw [hsqa2] at harceq
  rw [← harceq]
  have harcge := self_le_arcsin (Real.sqrt aa) (Real.sqrt_nonneg aa)
    (by linarith [hsqau])
  have hsal : (19e-5 : ℝ) ≤ Real.sqrt aa := by
    rw [Real.le_sqrt (by norm_num) haa0]
    nlinarith [haal]
  linarith [harcge, hsal]

theorem demo3_within_false :
    withinRadiusJS (some (47.78 : ℚ)) (some (-122.315 : ℚ))
      (some ((47.78 : ℚ) - 2/100)) (some ((-122.315 : ℚ) + 15/1000))
      (((1 : ℤ) : ℚ) + 1/2) = false := by
  unfold withinRadiusJS isWithinRadius
  dsimp only
  have hc1 : ((47.78 : ℚ) : ℝ) = 47.78 := by norm_num
  have hc2 : ((-122.315 : ℚ) : ℝ) = -122.315 := by norm_num
  have hc3 : (((47.78 : ℚ) - 2/100 : ℚ) : ℝ) = 47.76 := by
    push_cast
    norm_num
  have hc4 : (((-122.315 : ℚ) + 15/1000 : ℚ) : ℝ) = -122.3 := by
    push_cast
    norm_num
  have hc5 : ((((1 : ℤ) : ℚ) + 1/2 : ℚ) : ℝ) = 3/2 := by
    push_cast
    norm_num
  rw [hc1, hc2, hc3, hc4, hc5]
  exact decide_eq_false (not_le.mpr demo3_far_real)

theorem demo_within12 (a b : ℚ) (rq : ℚ) (hr : (3 : ℚ)/2 ≤ rq) :
    withinRadiusJS (some a) (some b) (some a) (some b) rq = true ∧
    withinRadiusJS (some a) (some b) (some (a + 1/100)) (some (b - 1/100))
      rq = true := by
  have hrr : ((3 : ℚ)/2 : ℝ) ≤ ((rq : ℚ) : ℝ) := by exact_mod_cast hr
  have hrr2 : (3/2 : ℝ) ≤ ((rq : ℚ) : ℝ) := by
    refine le_trans ?_ hrr
    norm_num
  refine ⟨withinRadiusJS_true _ _ _ _ _ ?_, withinRadiusJS_true _ _ _ _ _ ?_⟩
  · have hb := calculateDistance_le_bound (a : ℝ) (b : ℝ) (a : ℝ) (b : ℝ)
      0 0 (le_refl 0) (le_refl 0) (by norm_num) (by simp) (by simp)
    push_cast at hb
    linarith
  · have hb := calculateDistance_le_bound (a : ℝ) (b : ℝ)
      ((a + 1/100 : ℚ) : ℝ) ((b - 1/100 : ℚ) : ℝ) (1/100) (1/100)
      (by norm_num) (by norm_num) (by norm_num)
      (by push_cast; rw [abs_le]; constructor <;> linarith)
      (by push_cast; rw [abs_le]; constructor <;> linarith)
    push_cast at hb ⊢
    linarith

set_option maxHeartbeats 1000000 in
theorem c2_run2_two (rand2 : ℕ → ℚ) (now2 : ℤ) (B2 : MemStorage)
    (zip egg : String) (r : ℤ) (a b : ℚ) (old : List Store) (S1 S2 S3 : Store)
    (hzip : isZip5 zip = true)
    (hg : getCoordinatesForZipCode zip = some ⟨some a, some b⟩)
    (hr1 : 1 ≤ r) (hr20 : r ≤ 20)
    (heggset : egg = "white" ∨ egg = "brown")
    (hgs : getStores B2 = old ++ [S1, S2, S3])
    (hold : ∀ s ∈ old, withinRadiusJS (some a) (some b) s.latitude
      s.longitude ((r : ℚ) + 1/2) = false)
    (hw1 : withinRadiusJS (some a) (some b) S1.latitude S1.longitude
      ((r : ℚ) + 1/2) = true)
    (hw2 : withinRadiusJS (some a) (some b) S2.latitude S2.longitude
      ((r : ℚ) + 1/2) = true)
    (hw3 : withinRadiusJS (some a) (some b) S3.latitude S3.longitude
      ((r : ℚ) + 1/2) = false)
    (hget1 : getStore B2 S1.id = some S1)
    (hget2 : getStore B2 S2.id = some S2) :
    ∃ mn mx, pricesHandler true rand2 now2 B2
        ⟨some zip, some (toString r), some egg⟩ =
      (.ok [withZip (joinView B2 egg S1.id S1) zip,
            withZip (joinView B2 egg S2.id S2) zip] mn mx, B2) := by
  obtain ⟨hpt, htne⟩ := parseInt_toString r hr1 hr20
  have hegne : egg ≠ "" := by rcases heggset with rfl | rfl <;> decide
  have hrange : ¬(r < 1 ∨ 20 < r) := by omega
  unfold pricesHandler
  dsimp only
  rw [hzip, if_neg (by decide : ¬(true = false)),
    jsOr_some_ne _ "5" htne, hpt]
  dsimp only
  rw [if_neg hrange, jsOr_some_ne egg "brown" hegne,
    toLower_fixed egg heggset, if_neg (not_not_intro heggset)]
  unfold searchCore
  rw [hg]
  dsimp only
  have hfB : (getStores B2).filter (fun s =>
      withinRadiusJS (some a) (some b) s.latitude s.longitude
        ((r : ℚ) + 1/2)) = [S1, S2] := by
    rw [hgs, List.filter_append,
      filter_empty_of_hempty old a b ((r : ℚ) + 1/2) hold]
    simp only [List.filter_cons, List.filter_nil, hw1, hw2, hw3, if_true,
      Bool.false_eq_true, if_false]
    rfl
  rw [hfB]
  rw [if_neg (by simp : ¬(([S1, S2] : List Store).length = 0))]
  unfold okResponse
  dsimp only [List.map_cons, List.map_nil]
  have hviews : getStoresWithPrices B2 [S1.id, S2.id] egg =
      [joinView B2 egg S1.id S1, joinView B2 egg S2.id S2] := by
    unfold getStoresWithPrices joinView
    simp only [List.filterMap_cons, List.filterMap_nil, hget1, hget2,
      Option.map_some']
  rw [hviews]
  exact ⟨_, _, rfl⟩

/-- Claim C2 (counterexample): at radius 1 — a valid radius per the claimed
range [1, 20] — the search `("99999", 1, "brown")` against the empty
repository in dev mode does trigger the synthetic backfill (first conjunct:
the first pass answers 307), yet the followed response contains only TWO
stores, not the configured three: the third demo store, offset
(−0.02, +0.015) degrees, lies ≈1.54 miles from the center, outside the
buffered filter radius 1 + 0.5 = 1.5 miles. -/
theorem c2_counterexample :
    (pricesHandler true (fun _ => 0) 0 emptyStorage
        ⟨some "99999", some "1", some "brown"⟩).1 =
      .redirect307 ⟨some "99999", some (toString (1 : ℤ)), some "brown"⟩ ∧
    ∃ (V1 V2 : StoreWithPrices) (mn mx : Option ℚ) (st2 : MemStorage),
      pricesSearchFollow true (fun _ => 0) (fun _ => 0) 0 0 emptyStorage
        ⟨some "99999", some "1", some "brown"⟩ = (.ok [V1, V2] mn mx, st2) := by
  have hlow : jsToLower "brown" = "brown" := by decide
  have h1 := c2_run1 (fun _ => 0) 0 emptyStorage "99999" "1" "brown" 1
    47.78 (-122.315) (by decide) geocode_99999 (by decide) (by omega)
    (by decide) (by decide) (Or.inr hlow)
    (fun s hs => absurd hs (List.not_mem_nil s))
  rw [hlow] at h1
  obtain ⟨hwfB, hgs, hget1, hget2, hget3, hlatest⟩ :=
    backfill_state (fun _ => 0) 0 emptyStorage "99999"
      ⟨some 47.78, some (-122.315)⟩ 1 "brown"
      ⟨⟨fun kv h => absurd h (List.not_mem_nil kv), List.nodup_nil⟩,
       fun kv h => absurd h (List.not_mem_nil kv), List.nodup_nil⟩
  have hw12 := demo_within12 47.78 (-122.315) (((1 : ℤ) : ℚ) + 1/2)
    (by norm_num)
  obtain ⟨mn, mx, h2⟩ := c2_run2_two (fun _ => 0) 0
    (backfillDemoStores (fun _ => 0) 0 emptyStorage "99999"
      ⟨some 47.78, some (-122.315)⟩ 1 "brown").2
    "99999" "brown" 1 47.78 (-122.315) (getStores emptyStorage)
    (demoStore1 "99999" ⟨some 47.78, some (-122.315)⟩
      emptyStorage.storeCurrentId)
    (demoStore2 "99999" ⟨some 47.78, some (-122.315)⟩
      (emptyStorage.storeCurrentId + 1))
    (demoStore3 "99999" ⟨some 47.78, some (-122.315)⟩
      (emptyStorage.storeCurrentId + 2))
    (by decide) geocode_99999 (by omega) (by omega) (Or.inr rfl) hgs
    (fun s hs => absurd hs (List.not_mem_nil s))
    hw12.1 hw12.2 demo3_within_false hget1 hget2
  constructor
  · have hfst := congrArg Prod.fst h1
    rw [hfst]
    exact backfill_fst _ _ _ _ _ _ _
  · have hchain : pricesSearchFollow true (fun _ => 0) (fun _ => 0) 0 0
        emptyStorage ⟨some "99999", some "1", some "brown"⟩ =
        pricesHandler true (fun _ => 0) 0
          (backfillDemoStores (fun _ => 0) 0 emptyStorage "99999"
            ⟨some 47.78, some (-122.315)⟩ 1 "brown").2
          ⟨some "99999", some (toString (1 : ℤ)), some "brown"⟩ := by
      unfold pricesSearchFollow
      rw [h1]
      rfl
    exact ⟨_, _, mn, mx, _, hchain.trans h2⟩
